import Mathlib

/-!
Shallow embedding of the flight and combat simulation of the
galaxy-of-darkness client (files `src/client/src/game/GameCanvas.tsx`,
`npcs.ts`, `shipConfig.ts`, `combatSites.ts`, `threeHelpers.ts`).

JavaScript numbers are modelled as elements of a linear ordered field with
a floor, and the transcendental library functions (`Math.sqrt`, `Math.sin`,
`Math.cos`, `Math.acos`, `Math.PI`) are collected in a `MathPrims`
parameter, so that the same definitions can be instantiated at `ℚ` with an
exact square root for concrete evaluation and at `ℝ` with the genuine
functions for the trigonometric facts.
-/

/-- The bundle of numeric library primitives used by the game code. -/
structure MathPrims (α : Type) where
  sqrt : α → α
  sin : α → α
  cos : α → α
  arccos : α → α
  pi : α

/-- Model of `THREE.Vector3`. -/
structure Vec3 (α : Type) where
  x : α
  y : α
  z : α
deriving DecidableEq

namespace Vec3

variable {α : Type} [LinearOrderedField α]

instance : Add (Vec3 α) := ⟨fun a b => ⟨a.x + b.x, a.y + b.y, a.z + b.z⟩⟩

instance : Sub (Vec3 α) := ⟨fun a b => ⟨a.x - b.x, a.y - b.y, a.z - b.z⟩⟩

/-- `v.multiplyScalar c`. -/
def smul (v : Vec3 α) (c : α) : Vec3 α := ⟨v.x * c, v.y * c, v.z * c⟩

/-- Dot product. -/
def dot (a b : Vec3 α) : α := a.x * b.x + a.y * b.y + a.z * b.z

/-- Cross product, in the component order used by `THREE.Vector3.cross`. -/
def cross (a b : Vec3 α) : Vec3 α :=
  ⟨a.y * b.z - a.z * b.y, a.z * b.x - a.x * b.z, a.x * b.y - a.y * b.x⟩

/-- `v.lengthSq()`. -/
def lengthSq (v : Vec3 α) : α := v.x * v.x + v.y * v.y + v.z * v.z

/-- `v.length()`. -/
def length (P : MathPrims α) (v : Vec3 α) : α := P.sqrt (lengthSq v)

/-- `a.distanceTo b`. -/
def distanceTo (P : MathPrims α) (a b : Vec3 α) : α := length P (a - b)

/-- `v.normalize()`, which in THREE divides by `length || 1`
(a zero length falls back to dividing by 1). -/
def normalize (P : MathPrims α) (v : Vec3 α) : Vec3 α :=
  let l := length P v
  let d := if l = 0 then 1 else l
  v.smul (1 / d)

/-- `v.setLength s` is `normalize` followed by `multiplyScalar s`. -/
def setLength (P : MathPrims α) (v : Vec3 α) (s : α) : Vec3 α :=
  (normalize P v).smul s

/-- `a.lerp b t`, componentwise `a + (b - a) * t`. -/
def lerp (a b : Vec3 α) (t : α) : Vec3 α :=
  ⟨a.x + (b.x - a.x) * t, a.y + (b.y - a.y) * t, a.z + (b.z - a.z) * t⟩

/-- `a.angleTo b` as in THREE: `acos (clamp (dot / sqrt (lenSq * lenSq)) (-1) 1)`,
with a zero denominator answering `π / 2`. -/
def angleTo (P : MathPrims α) (a b : Vec3 α) : α :=
  let denominator := P.sqrt (lengthSq a * lengthSq b)
  if denominator = 0 then P.pi / 2
  else
    let theta := dot a b / denominator
    P.arccos (max (-1) (min theta 1))

end Vec3

/-! ## Constants of the simulation (GameCanvas.tsx, shipConfig.ts, npcs.ts) -/

section Constants

variable {α : Type} [LinearOrderedField α]

/-- `SCALE_FACTOR = 1e-9` (threeHelpers.ts): meters to world units. -/
def SCALE_FACTOR : α := 1 / 1000000000

/-- `WARP_IN_BUFFER_M = 10_000`. -/
def WARP_IN_BUFFER_M : α := 10000

/-- `WARP_ALIGN_SPEED_FRAC = 0.75`. -/
def WARP_ALIGN_SPEED_FRAC : α := 75 / 100

/-- `WARP_ALIGN_ANGLE_EPS = degToRad 3 = 3 * π / 180`. -/
def WARP_ALIGN_ANGLE_EPS (P : MathPrims α) : α := 3 * P.pi / 180

/-- `WARP_ALIGN_MIN_TIME = 0.35` seconds. -/
def WARP_ALIGN_MIN_TIME : α := 35 / 100

/-- `LOCK_RANGE_M = 100_000`. -/
def LOCK_RANGE_M : α := 100000

/-- `MAX_LOCKS = 5`. -/
def MAX_LOCKS : ℕ := 5

/-- `SUBLIGHT_MAX_SPEED = 3000 * SCALE_FACTOR` world units per second. -/
def SUBLIGHT_MAX_SPEED : α := 3000 * SCALE_FACTOR

/-- `SUBLIGHT_ACCEL = 900 * SCALE_FACTOR`. -/
def SUBLIGHT_ACCEL : α := 900 * SCALE_FACTOR

/-- `SUBLIGHT_DECEL = 1200 * SCALE_FACTOR`. -/
def SUBLIGHT_DECEL : α := 1200 * SCALE_FACTOR

/-- `WARP_MAX_SPEED = 18.0`. -/
def WARP_MAX_SPEED : α := 18

/-- `WARP_ACCEL = 2.4`. -/
def WARP_ACCEL : α := 24 / 10

/-- `WARP_DECEL = 2.8`. -/
def WARP_DECEL : α := 28 / 10

/-- `WARP_MIN_SPEED = 0.22`. -/
def WARP_MIN_SPEED : α := 22 / 100

/-- `ALIGN_TURN_RATE_RAD = degToRad 42`. -/
def ALIGN_TURN_RATE_RAD (P : MathPrims α) : α := 42 * P.pi / 180

/-- `NAV_DIR_SMOOTHING = 1.0`. -/
def NAV_DIR_SMOOTHING : α := 1

/-- `ENCOUNTER_WAVE_DELAY_MS = 1200`. -/
def ENCOUNTER_WAVE_DELAY_MS : α := 1200

end Constants

/-! ## Ship stats (shipConfig.ts) -/

/-- Weapon damage split, `damage: { armor, hull }`. -/
structure DamageSplit (α : Type) where
  armor : α
  hull : α
deriving DecidableEq

/-- `ShipStats.weapon`. -/
structure WeaponStats (α : Type) where
  name : String
  cooldownMs : α
  range_m : α
  damage : DamageSplit α
deriving DecidableEq

/-- `ShipStats` (shipConfig.ts). -/
structure ShipStats (α : Type) where
  name : String
  size_m : α
  maxArmor : α
  maxHull : α
  weapon : WeaponStats α
deriving DecidableEq

/-- `DEFAULT_SHIP_STATS` (shipConfig.ts): the Basic Frigate; this is the
`shipStats` value used by GameCanvas. -/
def DEFAULT_SHIP_STATS {α : Type} [LinearOrderedField α] : ShipStats α where
  name := "Basic Frigate"
  size_m := 300
  maxArmor := 120
  maxHull := 90
  weapon :=
    { name := "Civilian Blaster (stub)"
      cooldownMs := 900
      range_m := 25000
      damage := { armor := 8, hull := 6 } }

/-! ## NPC specs and wave spawning (npcs.ts) -/

/-- `NpcSpec.archetype`. -/
inductive NpcArchetype : Type
  | basic
  | boss
deriving DecidableEq

/-- `NpcSpec` (npcs.ts). -/
structure NpcSpec (α : Type) where
  archetype : NpcArchetype
  maxHp : α
  speed_mps : α
  desiredRange_m : α
  range_m : α
  cooldownMs : α
  damage : DamageSplit α
deriving DecidableEq

/-- `BASIC_NPC_SPEC`. -/
def BASIC_NPC_SPEC {α : Type} [LinearOrderedField α] : NpcSpec α where
  archetype := .basic
  maxHp := 40
  speed_mps := 1200
  desiredRange_m := 5000
  range_m := 20000
  cooldownMs := 1100
  damage := { armor := 6, hull := 4 }

/-- `BOSS_NPC_SPEC`. -/
def BOSS_NPC_SPEC {α : Type} [LinearOrderedField α] : NpcSpec α where
  archetype := .boss
  maxHp := 180
  speed_mps := 1450
  desiredRange_m := 5000
  range_m := 28000
  cooldownMs := 850
  damage := { armor := 10, hull := 8 }

/-- `SpawnedNpc` (npcs.ts). -/
structure SpawnedNpc (α : Type) where
  key : String
  name : String
  spec : NpcSpec α
  posWorld : Vec3 α
  hp : α
  strafeDir : Vec3 α
  nextFireAt : α
deriving DecidableEq

section Npcs

variable {α : Type} [LinearOrderedField α] [FloorRing α]

/-- `pseudoRand(seed)` (npcs.ts): deterministic 0..1,
`x = sin(seed * 999.123 + 0.12345) * 43758.5453123; return x - floor x`. -/
def pseudoRand (P : MathPrims α) (seed : α) : α :=
  let x := P.sin (seed * (999123 / 1000) + 12345 / 100000) * (437585453123 / 10000000)
  x - Int.floor x

/-- `orthonormalStrafe(dirToShip, seed)` (npcs.ts). -/
def orthonormalStrafe (P : MathPrims α) (dirToShip : Vec3 α) (seed : α) : Vec3 α :=
  let up : Vec3 α := if |dirToShip.y| < 92 / 100 then ⟨0, 1, 0⟩ else ⟨1, 0, 0⟩
  let s := Vec3.normalize P (Vec3.cross dirToShip up)
  let t := Vec3.normalize P (Vec3.cross dirToShip s)
  let a := pseudoRand P seed * P.pi * 2
  Vec3.normalize P (s.smul (P.cos a) + t.smul (P.sin a))

/-- `spawnNpcWave(sitePosWorld, wave)` (npcs.ts); `now` stands for the
`performance.now()` read at the top of the function. -/
def spawnNpcWave (P : MathPrims α) (sitePosWorld : Vec3 α) (wave : ℕ) (now : α) :
    List (SpawnedNpc α) :=
  if wave = 3 then
    let seed : α := 3000 + (wave : α) * 17
    let offsetM : α := 8000
    let ang := pseudoRand P seed * P.pi * 2
    let off := (Vec3.mk (P.cos ang) 0 (P.sin ang)).smul (offsetM * SCALE_FACTOR)
    let pos := sitePosWorld + off
    let toShip : Vec3 α := ⟨1, 0, 0⟩
    let strafe := orthonormalStrafe P toShip seed
    [{ key := "npc:wave:" ++ toString wave ++ ":boss"
       name := "Boss NPC"
       spec := BOSS_NPC_SPEC
       posWorld := pos
       hp := BOSS_NPC_SPEC.maxHp
       strafeDir := strafe
       nextFireAt := now + 650 }]
  else
    (List.range 3).map fun (i : ℕ) =>
      let seed : α := 1000 + (wave : α) * 31 + (i : α) * 97
      let offsetM : α := 6500 + (i : α) * 1000
      let ang := ((i : α) / 3) * P.pi * 2 + pseudoRand P seed * (6 / 10)
      let off := (Vec3.mk (P.cos ang) 0 (P.sin ang)).smul (offsetM * SCALE_FACTOR)
      let pos := sitePosWorld + off
      let toShip : Vec3 α := ⟨1, 0, 0⟩
      let strafe := orthonormalStrafe P toShip seed
      { key := "npc:wave:" ++ toString wave ++ ":" ++ toString i
        name := "NPC " ++ toString wave ++ "-" ++ toString (i + 1)
        spec := BASIC_NPC_SPEC
        posWorld := pos
        hp := BASIC_NPC_SPEC.maxHp
        strafeDir := strafe
        nextFireAt := now + 400 + (i : α) * 160 }

end Npcs

/-! ## Scene entity metadata (GameCanvas.tsx, types around lines 133 to 176) -/

/-- The celestial kinds delivered by the world-data collaborator. -/
inductive CelKind : Type
  | star
  | planet
  | moon
  | stargate
  | station
deriving DecidableEq

/-- `CelestialMeta` (radius and warp-in point precomputed per body). -/
structure CelestialMeta (α : Type) where
  key : String
  name : String
  kind : CelKind
  posWorld : Vec3 α
  radiusWorld : α
  warpInWorld : Vec3 α
deriving DecidableEq

/-- `CombatSiteMeta`. -/
structure CombatSiteMeta (α : Type) where
  key : String
  name : String
  posWorld : Vec3 α
deriving DecidableEq

/-- `NpcMeta` without its `mesh` and `sprite` render objects; the sprite
bookkeeping collections are modelled by owner key in `SimState`. -/
structure NpcMeta (α : Type) where
  key : String
  name : String
  posWorld : Vec3 α
  hp : α
  maxHp : α
  wave : ℕ
  spec : NpcSpec α
  nextFireAt : α
  strafeDir : Vec3 α
deriving DecidableEq

/-- `SpaceMeta = CelestialMeta | CombatSiteMeta | NpcMeta`. -/
inductive SpaceMeta (α : Type) : Type
  | cel (c : CelestialMeta α)
  | site (s : CombatSiteMeta α)
  | npc (n : NpcMeta α)
deriving DecidableEq

/-- Position of any space entity. -/
def SpaceMeta.posWorld {α : Type} : SpaceMeta α → Vec3 α
  | .cel c => c.posWorld
  | .site s => s.posWorld
  | .npc n => n.posWorld

/-- Encounter state, `encounterRef`: `{ siteKey, wave: 0|1|2|3, nextWaveAt }`. -/
structure Encounter (α : Type) where
  siteKey : String
  wave : ℕ
  nextWaveAt : α
deriving DecidableEq

/-- Warp phase tag, `"align" | "warp"`. -/
inductive WarpPhase : Type
  | align
  | warp
deriving DecidableEq

/-- `warpRef` contents while a warp is active. -/
structure WarpState (α : Type) where
  phase : WarpPhase
  destPos : Vec3 α
  centerPos : Vec3 α
  targetName : String
  targetKey : String
  alignTime : α
deriving DecidableEq

/-- `approachRef` contents while an approach is active. -/
structure ApproachState (α : Type) where
  targetPos : Vec3 α
  targetRadius : α
  targetKey : String
deriving DecidableEq

/-! A JavaScript `Record<string, number>` (the `targetTestHp` display-health
map) is modelled as an association list with at most one entry per key. -/

/-- Lookup in a string-keyed record. -/
def recGet {α : Type} (m : List (String × α)) (k : String) : Option α :=
  (m.find? fun e => e.1 == k).map fun e => e.2

/-- `{ ...prev, [k]: v }`: replace the entry if present, else append. -/
def recSet {α : Type} (m : List (String × α)) (k : String) (v : α) :
    List (String × α) :=
  if (m.find? fun e => e.1 == k).isSome then
    m.map fun e => if e.1 == k then (k, v) else e
  else m ++ [(k, v)]

/-- `delete copy[k]`. -/
def recDel {α : Type} (m : List (String × α)) (k : String) : List (String × α) :=
  m.filter fun e => e.1 ≠ k

/-- The shared simulation state of GameCanvas: ship kinematics, navigation
intents, health pools, lock state, firing state, entity collections and the
encounter. React state/ref pairs collapse to a single field each; the
`spritesRef` / `spriteMeta` bookkeeping collections are modelled by the
owner key of each npc sprite. -/
structure SimState (α : Type) where
  shipPos : Vec3 α
  shipVel : Vec3 α
  navDir : Vec3 α
  shipForward : Vec3 α
  sublightDir : Option (Vec3 α)
  approach : Option (ApproachState α)
  warp : Option (WarpState α)
  armor : α
  hull : α
  firing : Bool
  nextFireAt : α
  lockedKeys : List String
  activeKey : Option String
  selectedKey : Option String
  targetTestHp : List (String × α)
  npcs : List (NpcMeta α)
  npcSprites : List String
  combatSites : List (CombatSiteMeta α)
  celestials : List (CelestialMeta α)
  encounter : Option (Encounter α)
  warpExitFlash : α
deriving DecidableEq

section Ops

variable {α : Type} [LinearOrderedField α] [FloorRing α]

/-- `centerDistanceMeters(shipPosWorld, posWorld)` (GameCanvas.tsx line 257). -/
def centerDistanceMeters (P : MathPrims α) (shipPosWorld posWorld : Vec3 α) : α :=
  Vec3.distanceTo P shipPosWorld posWorld / SCALE_FACTOR

/-- `effectiveDistanceMeters(shipPosWorld, meta)` (GameCanvas.tsx lines 262
to 270): surface-adjusted distance for celestial bodies other than the
star; raw center distance for stars, combat sites and npcs. -/
def effectiveDistanceMeters (P : MathPrims α) (shipPosWorld : Vec3 α)
    (meta : SpaceMeta α) : α :=
  let centerDistMeters := Vec3.distanceTo P shipPosWorld meta.posWorld / SCALE_FACTOR
  match meta with
  | .npc _ => centerDistMeters
  | .site _ => centerDistMeters
  | .cel c =>
    if c.kind = .star then centerDistMeters
    else max 0 (centerDistMeters - (c.radiusWorld / SCALE_FACTOR + WARP_IN_BUFFER_M))

/-- `findSpaceByKey(key)` (GameCanvas.tsx lines 636 to 644): npcs first,
then combat sites, then celestials. -/
def findSpaceByKey (s : SimState α) (key : String) : Option (SpaceMeta α) :=
  match s.npcs.find? fun n => n.key == key with
  | some n => some (.npc n)
  | none =>
    match s.combatSites.find? fun c => c.key == key with
    | some c => some (.site c)
    | none => (s.celestials.find? fun c => c.key == key).map .cel

/-- `canLockNow(meta)` (GameCanvas.tsx lines 646 to 650). -/
def canLockNow (P : MathPrims α) (s : SimState α) (meta : SpaceMeta α) : Prop :=
  effectiveDistanceMeters P s.shipPos meta ≤ LOCK_RANGE_M

instance (P : MathPrims α) (s : SimState α) (meta : SpaceMeta α) :
    Decidable (canLockNow P s meta) := by
  unfold canLockNow; infer_instance

/-- `ensureLocked(key)` (GameCanvas.tsx lines 652 to 674). -/
def ensureLocked (P : MathPrims α) (key : String) (s : SimState α) : SimState α :=
  match findSpaceByKey s key with
  | none => s
  | some meta =>
    if canLockNow P s meta then
      let locked :=
        if key ∈ s.lockedKeys then s.lockedKeys
        else if MAX_LOCKS ≤ s.lockedKeys.length then s.lockedKeys
        else s.lockedKeys ++ [key]
      let hpMap :=
        if (recGet s.targetTestHp key).isSome then s.targetTestHp
        else
          match meta with
          | .npc n => recSet s.targetTestHp key ((round (n.hp / max 1 n.maxHp * 100) : ℤ) : α)
          | _ => recSet s.targetTestHp key 100
      let active := some (s.activeKey.getD key)
      { s with lockedKeys := locked, targetTestHp := hpMap, activeKey := active }
    else s

/-- `unlockTarget(key)` (GameCanvas.tsx lines 676 to 689). -/
def unlockTarget (key : String) (s : SimState α) : SimState α :=
  let locked := s.lockedKeys.filter fun k => k ≠ key
  let hpMap := recDel s.targetTestHp key
  let active :=
    if s.activeKey ≠ some key then s.activeKey
    else (s.lockedKeys.filter fun k => k ≠ key).head?
  let selected := if s.selectedKey = some key then none else s.selectedKey
  { s with lockedKeys := locked, targetTestHp := hpMap, activeKey := active,
           selectedKey := selected }

/-- `killNpc(npc)` (GameCanvas.tsx lines 949 to 966): drop the render
objects and sprite bookkeeping, remove from the npc list, and force-unlock. -/
def killNpc (npc : NpcMeta α) (s : SimState α) : SimState α :=
  let s1 := { s with
    npcSprites := s.npcSprites.filter fun k => k ≠ npc.key
    npcs := s.npcs.filter fun n => n.key ≠ npc.key }
  if npc.key ∈ s1.lockedKeys then unlockTarget npc.key s1 else s1

/-- `damageNpc(npc, dmg)` (GameCanvas.tsx lines 968 to 975). -/
def damageNpc (npc : NpcMeta α) (dmg : α) (s : SimState α) : SimState α :=
  let hp := max 0 (npc.hp - dmg)
  let npc1 : NpcMeta α := { npc with hp := hp }
  let s1 := { s with npcs := s.npcs.map fun n => if n.key == npc.key then npc1 else n }
  let s2 :=
    if (recGet s1.targetTestHp npc.key).isSome then
      { s1 with targetTestHp :=
          recSet s1.targetTestHp npc.key ((round (hp / max 1 npc.maxHp * 100) : ℤ) : α) }
    else s1
  if hp ≤ 0 then killNpc npc1 s2 else s2

/-- `performShot(targetKey, originWorld)` (GameCanvas.tsx lines 977 to 996);
the tracer is render-only and omitted. -/
def performShot (targetKey : String) (s : SimState α) : SimState α :=
  match findSpaceByKey s targetKey with
  | none => s
  | some meta =>
    match meta with
    | .npc n =>
      let dmg := DEFAULT_SHIP_STATS.weapon.damage.armor + DEFAULT_SHIP_STATS.weapon.damage.hull
      damageNpc n dmg s
    | _ =>
      let cur := (recGet s.targetTestHp targetKey).getD 100
      { s with targetTestHp := recSet s.targetTestHp targetKey (max 0 (cur - 5)) }

/-- `applyDamageToPlayer(dmgArmor, dmgHull)` (GameCanvas.tsx lines 910 to
947): armor absorbs first, overflow plus hull damage hits the hull, both
floored at zero; a hull at zero triggers the in-place respawn. -/
def applyDamageToPlayer (dmgArmor dmgHull : α) (s : SimState α) : SimState α :=
  let armorTaken := min s.armor dmgArmor
  let a0 := s.armor - armorTaken
  let overflow := dmgArmor - armorTaken
  let hullFromOverflow := max 0 overflow
  let h0 := s.hull - hullFromOverflow - dmgHull
  let a := max 0 a0
  let h := max 0 h0
  if h ≤ 0 then
    { s with armor := DEFAULT_SHIP_STATS.maxArmor, hull := DEFAULT_SHIP_STATS.maxHull,
             shipVel := ⟨0, 0, 0⟩, sublightDir := none, approach := none,
             warp := none, firing := false }
  else { s with armor := a, hull := h }

end Ops

section Steps

variable {α : Type} [LinearOrderedField α] [FloorRing α]

/-- `updateNavDirection(desired, dt)` (GameCanvas.tsx lines 998 to 1014):
rotate the persistent nav direction toward `desired` at the bounded turn
rate; the rotated direction is both returned and stored. -/
def updateNavDirection (P : MathPrims α) (navDir desired : Vec3 α) (dt : α) : Vec3 α :=
  if Vec3.lengthSq desired < 1 / 10000000000 then navDir
  else
    let d := Vec3.normalize P desired
    let angle := Vec3.angleTo P navDir d
    if angle < 1 / 1000000 then d
    else
      let maxStep := ALIGN_TURN_RATE_RAD P * dt * NAV_DIR_SMOOTHING
      let t := min 1 (maxStep / angle)
      Vec3.normalize P (Vec3.lerp navDir d t)

/-- Conversion of a `SpawnedNpc` to the `NpcMeta` pushed by `stepEncounter`
(GameCanvas.tsx lines 1073 to 1091); the sprite is recorded by owner key. -/
def spawnedToMeta (wave : ℕ) (sp : SpawnedNpc α) : NpcMeta α where
  key := sp.key
  name := sp.name
  posWorld := sp.posWorld
  hp := sp.hp
  maxHp := sp.spec.maxHp
  wave := wave
  spec := sp.spec
  nextFireAt := sp.nextFireAt
  strafeDir := sp.strafeDir

/-- `stepEncounter(nowMs)` (GameCanvas.tsx lines 1016 to 1093): with no
live hostiles, past the spawn time and below wave 3, advance the wave and
spawn it at the encounter site. -/
def stepEncounter (P : MathPrims α) (nowMs : α) (s : SimState α) : SimState α :=
  match s.encounter with
  | none => s
  | some enc =>
    if 0 < s.npcs.length then s
    else if nowMs < enc.nextWaveAt then s
    else if 3 ≤ enc.wave then s
    else
      let nextWave := enc.wave + 1
      let enc1 : Encounter α := { enc with wave := nextWave,
                                           nextWaveAt := nowMs + ENCOUNTER_WAVE_DELAY_MS }
      let s1 := { s with encounter := some enc1 }
      match s1.combatSites.find? fun c => c.key == enc.siteKey with
      | none => s1
      | some site =>
        let spawned := spawnNpcWave P site.posWorld nextWave nowMs
        { s1 with npcs := s1.npcs ++ spawned.map (spawnedToMeta nextWave),
                  npcSprites := s1.npcSprites ++ spawned.map fun sp => sp.key }

/-- The auto-firing block at the top of `stepMovement` (GameCanvas.tsx
lines 1143 to 1166): with firing on, a present active lock and an elapsed
cooldown, fire when the raw center distance is within weapon range, and
consume the cooldown regardless. -/
def autofireStep (P : MathPrims α) (now : α) (s : SimState α) : SimState α :=
  if s.firing then
    match s.activeKey with
    | none => { s with firing := false }
    | some active =>
      if s.nextFireAt ≤ now then
        if active ∈ s.lockedKeys then
          let s1 :=
            match findSpaceByKey s active with
            | some meta =>
              if centerDistanceMeters P s.shipPos meta.posWorld ≤
                  DEFAULT_SHIP_STATS.weapon.range_m then
                performShot active s
              else s
            | none => s
          { s1 with nextFireAt := now + DEFAULT_SHIP_STATS.weapon.cooldownMs }
        else { s with firing := false }
      else s
  else s

/-- The warp block of `stepMovement` (GameCanvas.tsx lines 1168 to 1248):
arrival snap, align phase and warp cruise phase. -/
def warpStep (P : MathPrims α) (dt : α) (s : SimState α) (w : WarpState α) : SimState α :=
  let toDest := w.destPos - s.shipPos
  let dist := Vec3.length P toDest
  let stopDist := max (DEFAULT_SHIP_STATS.size_m * SCALE_FACTOR * 10) (1 / 10000000)
  if dist ≤ stopDist then
    { s with shipPos := w.destPos, shipVel := ⟨0, 0, 0⟩, warpExitFlash := 1, warp := none }
  else
    let desired := Vec3.normalize P toDest
    match w.phase with
    | .align =>
      let alignTime := w.alignTime + dt
      let nav := updateNavDirection P s.navDir desired dt
      let alignSpeed := SUBLIGHT_MAX_SPEED * WARP_ALIGN_SPEED_FRAC
      let v := Vec3.length P s.shipVel
      let newSpeed :=
        if v < alignSpeed then min alignSpeed (v + SUBLIGHT_ACCEL * dt)
        else max alignSpeed (v - SUBLIGHT_DECEL * dt)
      let vel := nav.smul newSpeed
      let pos := s.shipPos + vel.smul dt
      let angle := Vec3.angleTo P nav desired
      let speedOk := alignSpeed * (98 / 100) ≤ newSpeed
      let angleOk := angle ≤ WARP_ALIGN_ANGLE_EPS P
      let timeOk := WARP_ALIGN_MIN_TIME ≤ alignTime
      if angleOk ∧ speedOk ∧ timeOk then
        let startWarpSpeed := max WARP_MIN_SPEED (Vec3.length P vel)
        { s with warp := some { w with phase := .warp, alignTime := alignTime },
                 navDir := desired, shipForward := desired,
                 shipVel := desired.smul startWarpSpeed, shipPos := pos }
      else
        { s with warp := some { w with alignTime := alignTime },
                 navDir := nav, shipForward := nav, shipVel := vel, shipPos := pos }
    | .warp =>
      let remaining := max (1 / 10000000) (dist - stopDist)
      let v := Vec3.length P s.shipVel
      let requiredDecel := v * v / (2 * remaining)
      let newSpeed0 :=
        if WARP_DECEL * (92 / 100) < requiredDecel then max 0 (v - WARP_DECEL * dt)
        else min WARP_MAX_SPEED (v + WARP_ACCEL * dt)
      let newSpeed := if 0 < newSpeed0 then max newSpeed0 WARP_MIN_SPEED else newSpeed0
      let vel := desired.smul newSpeed
      let pos := s.shipPos + vel.smul dt
      let after := w.destPos - pos
      if Vec3.dot after desired < 0 then
        { s with navDir := desired, shipForward := desired, shipPos := w.destPos,
                 shipVel := ⟨0, 0, 0⟩, warpExitFlash := 1, warp := none }
      else
        { s with navDir := desired, shipForward := desired, shipVel := vel,
                 shipPos := pos, warp := some w }

/-- The approach block of `stepMovement` (GameCanvas.tsx lines 1250 to 1285). -/
def approachStep (P : MathPrims α) (dt : α) (s : SimState α) (ap : ApproachState α) :
    SimState α :=
  let to_ := ap.targetPos - s.shipPos
  let dist := Vec3.length P to_
  let stopDist := max (DEFAULT_SHIP_STATS.size_m * SCALE_FACTOR * 40)
    (ap.targetRadius + WARP_IN_BUFFER_M * SCALE_FACTOR)
  if dist ≤ stopDist then
    { s with shipVel := ⟨0, 0, 0⟩, approach := none }
  else
    let desired := Vec3.normalize P to_
    let nav := updateNavDirection P s.navDir desired dt
    let remaining := max (1 / 10000000) (dist - stopDist)
    let v := Vec3.length P s.shipVel
    let requiredDecel := v * v / (2 * remaining)
    let newSpeed :=
      if SUBLIGHT_DECEL * (92 / 100) < requiredDecel then max 0 (v - SUBLIGHT_DECEL * dt)
      else min SUBLIGHT_MAX_SPEED (v + SUBLIGHT_ACCEL * dt)
    let vel := nav.smul newSpeed
    { s with navDir := nav, shipForward := nav, shipVel := vel,
             shipPos := s.shipPos + vel.smul dt }

/-- The idle block of `stepMovement` (GameCanvas.tsx lines 1287 to 1298):
no manual direction, decelerate along the current velocity. -/
def idleStep (P : MathPrims α) (dt : α) (s : SimState α) : SimState α :=
  let v := Vec3.length P s.shipVel
  let vel :=
    if 0 < v then
      let newSpeed := max 0 (v - SUBLIGHT_DECEL * dt)
      if newSpeed = 0 then (⟨0, 0, 0⟩ : Vec3 α) else Vec3.setLength P s.shipVel newSpeed
    else s.shipVel
  { s with shipVel := vel, shipPos := s.shipPos + vel.smul dt }

/-- The manual-heading block of `stepMovement` (GameCanvas.tsx lines 1300
to 1314). -/
def manualStep (P : MathPrims α) (dt : α) (s : SimState α) (desiredDir : Vec3 α) :
    SimState α :=
  let nav := updateNavDirection P s.navDir (Vec3.normalize P desiredDir) dt
  let currentSpeed := Vec3.length P s.shipVel
  let targetSpeed := SUBLIGHT_MAX_SPEED (α := α)
  let newSpeed :=
    if currentSpeed < targetSpeed then min targetSpeed (currentSpeed + SUBLIGHT_ACCEL * dt)
    else max targetSpeed (currentSpeed - SUBLIGHT_DECEL * dt)
  let vel := nav.smul newSpeed
  { s with navDir := nav, shipForward := nav, shipVel := vel,
           shipPos := s.shipPos + vel.smul dt }

/-- `stepMovement(dt)` (GameCanvas.tsx lines 1138 to 1315): the auto-fire
block runs first and falls through; then exactly one navigation mode runs.
`now` stands for the `performance.now()` read in the firing block. -/
def stepMovement (P : MathPrims α) (now dt : α) (s : SimState α) : SimState α :=
  let s1 := autofireStep P now s
  match s1.warp with
  | some w => warpStep P dt s1 w
  | none =>
    match s1.approach with
    | some ap => approachStep P dt s1 ap
    | none =>
      match s1.sublightDir with
      | none => idleStep P dt s1
      | some d => manualStep P dt s1 d

end Steps

/-! ## Instantiations of the math primitives -/

/-- Rational instantiation used to run the model on concrete inputs.
`Rat.sqrt` agrees with the real square root on every perfect square (and
every concrete evaluation below only takes square roots of perfect
squares); the trigonometric slots are arbitrary total functions, and `pi`
is a positive rational stand-in — no concrete evaluation below depends on
their values. -/
def testPrims : MathPrims ℚ where
  sqrt := Rat.sqrt
  sin := fun _ => 0
  cos := fun _ => 1
  arccos := fun _ => 0
  pi := 314159 / 100000

/-- Real instantiation with the genuine transcendental functions; used for
the trigonometric facts about spawn geometry. -/
noncomputable def realPrims : MathPrims ℝ where
  sqrt := Real.sqrt
  sin := Real.sin
  cos := Real.cos
  arccos := Real.arccos
  pi := Real.pi

/-! ## Helper lemmas -/

section Helpers

variable {α : Type} [LinearOrderedField α]

theorem sub_min_self_eq (a b : α) : a - min a b = max 0 (a - b) := by
  rcases le_total a b with h | h
  · simp [min_eq_left h, max_eq_left (sub_nonpos.mpr h)]
  · simp [min_eq_right h, max_eq_right (sub_nonneg.mpr h)]

theorem sub_min_self_eq' (a b : α) : b - min a b = max 0 (b - a) := by
  rw [min_comm]; exact sub_min_self_eq b a

theorem max_zero_max_zero (a : α) : max 0 (max 0 a) = max 0 a := by
  rcases le_total 0 a with h | h
  · rw [max_eq_right h, max_eq_right h]
  · rw [max_eq_left h, max_eq_left le_rfl]

end Helpers

/-- A concrete quiescent state: full health, ship at the origin, no
intents, no locks, no entities. Used as the base input of the concrete
evaluations. -/
def baseState : SimState ℚ where
  shipPos := ⟨0, 0, 0⟩
  shipVel := ⟨0, 0, 0⟩
  navDir := ⟨1, 0, 0⟩
  shipForward := ⟨1, 0, 0⟩
  sublightDir := none
  approach := none
  warp := none
  armor := 120
  hull := 90
  firing := false
  nextFireAt := 0
  lockedKeys := []
  activeKey := none
  selectedKey := none
  targetTestHp := []
  npcs := []
  npcSprites := []
  combatSites := []
  celestials := []
  encounter := none
  warpExitFlash := 0

/-! ## C1: player damage arithmetic -/

/-- C1: for `applyDamageToPlayer(armorDmg, hullDmg)` with nonnegative
damage, armor absorbs up to its current value, the excess beyond the
absorbed amount plus the hull damage is subtracted from hull, and both
pools floor at 0 (stated for every call that does not drive hull to 0, in
which case the respawn of C2 takes over); in particular from
`armor = 120, hull = 90` the call `applyDamageToPlayer 140 0` leaves
`armor = 0` and `hull = 70` in that single call. -/
theorem applyDamageToPlayer_pools {α : Type} [LinearOrderedField α] [FloorRing α]
    (s : SimState α) (ad hd : α) (had : 0 ≤ ad) (hhd : 0 ≤ hd) :
    (0 < max 0 (s.hull - (max 0 (ad - s.armor) + hd)) →
      (applyDamageToPlayer ad hd s).armor = max 0 (s.armor - ad) ∧
      (applyDamageToPlayer ad hd s).hull = max 0 (s.hull - (max 0 (ad - s.armor) + hd))) ∧
    0 ≤ (applyDamageToPlayer ad hd s).armor ∧
    0 ≤ (applyDamageToPlayer ad hd s).hull ∧
    (s.armor = 120 ∧ s.hull = 90 ∧ ad = 140 ∧ hd = 0 →
      (applyDamageToPlayer ad hd s).armor = 0 ∧ (applyDamageToPlayer ad hd s).hull = 70) := by
  have harm : s.armor - min s.armor ad = max 0 (s.armor - ad) := sub_min_self_eq _ _
  have hov : ad - min s.armor ad = max 0 (ad - s.armor) := sub_min_self_eq' _ _
  have hfo : max 0 (ad - min s.armor ad) = max 0 (ad - s.armor) := by
    rw [hov, max_zero_max_zero]
  have hhull : s.hull - max 0 (ad - min s.armor ad) - hd
      = s.hull - (max 0 (ad - s.armor) + hd) := by rw [hfo]; ring
  unfold applyDamageToPlayer
  simp only [hhull]
  split_ifs with hdead
  · refine ⟨fun hpos => absurd (lt_of_lt_of_le hpos hdead) (lt_irrefl 0), ?_, ?_, ?_⟩
    · simp [DEFAULT_SHIP_STATS]
    · simp [DEFAULT_SHIP_STATS]
    · rintro ⟨h1, h2, h3, h4⟩
      rw [h1, h2, h3, h4] at hdead
      norm_num at hdead
  · refine ⟨fun _ => ⟨?_, rfl⟩, ?_, ?_, ?_⟩
    · simp only [harm, max_zero_max_zero]
    · exact le_max_left _ _
    · exact le_max_left _ _
    · rintro ⟨h1, h2, h3, h4⟩
      constructor
      · simp only [harm, max_zero_max_zero, h1, h3]
        norm_num
      · simp only [h1, h2, h3, h4]
        norm_num

/-- Witness for C1: the concrete call from the spec. -/
theorem applyDamageToPlayer_pools_witness :
    (0 ≤ (140 : ℚ)) ∧ (0 ≤ (0 : ℚ)) ∧
    (applyDamageToPlayer (140 : ℚ) 0 baseState).armor = 0 ∧
    (applyDamageToPlayer (140 : ℚ) 0 baseState).hull = 70 :=
  ⟨by norm_num, le_rfl,
    ((applyDamageToPlayer_pools baseState 140 0 (by norm_num) le_rfl).2.2.2
      ⟨rfl, rfl, rfl, rfl⟩).1,
    ((applyDamageToPlayer_pools baseState 140 0 (by norm_num) le_rfl).2.2.2
      ⟨rfl, rfl, rfl, rfl⟩).2⟩

/-! ## C2: respawn on death -/

/-- C2: every call of `applyDamageToPlayer` that drives the hull to 0
respawns the ship before returning: armor and hull reset to their maxima,
velocity zeroed, the manual-heading, approach and warp intents cleared,
firing disabled, and the position untouched. -/
theorem applyDamageToPlayer_respawn {α : Type} [LinearOrderedField α] [FloorRing α]
    (s : SimState α) (ad hd : α)
    (hdie : s.hull ≤ max 0 (ad - s.armor) + hd) :
    (applyDamageToPlayer ad hd s).armor = DEFAULT_SHIP_STATS.maxArmor ∧
    (applyDamageToPlayer ad hd s).hull = DEFAULT_SHIP_STATS.maxHull ∧
    (applyDamageToPlayer ad hd s).shipVel = ⟨0, 0, 0⟩ ∧
    (applyDamageToPlayer ad hd s).sublightDir = none ∧
    (applyDamageToPlayer ad hd s).approach = none ∧
    (applyDamageToPlayer ad hd s).warp = none ∧
    (applyDamageToPlayer ad hd s).firing = false ∧
    (applyDamageToPlayer ad hd s).shipPos = s.shipPos ∧
    DEFAULT_SHIP_STATS.maxArmor = (120 : α) ∧ DEFAULT_SHIP_STATS.maxHull = (90 : α) := by
  have hov : ad - min s.armor ad = max 0 (ad - s.armor) := sub_min_self_eq' _ _
  have hfo : max 0 (ad - min s.armor ad) = max 0 (ad - s.armor) := by
    rw [hov, max_zero_max_zero]
  have hneg : s.hull - max 0 (ad - min s.armor ad) - hd ≤ 0 := by
    rw [hfo]; linarith
  have hcond : max 0 (s.hull - max 0 (ad - min s.armor ad) - hd) ≤ 0 :=
    le_of_eq (max_eq_left hneg)
  unfold applyDamageToPlayer
  rw [if_pos hcond]
  exact ⟨rfl, rfl, rfl, rfl, rfl, rfl, rfl, rfl, by simp [DEFAULT_SHIP_STATS],
    by simp [DEFAULT_SHIP_STATS]⟩

/-- Witness for C2: a hull shot of 90 on the full-health base state
triggers the respawn. -/
theorem applyDamageToPlayer_respawn_witness :
    (baseState.hull ≤ max 0 ((0 : ℚ) - baseState.armor) + 90) ∧
    (applyDamageToPlayer (0 : ℚ) 90 baseState).hull = DEFAULT_SHIP_STATS.maxHull ∧
    (applyDamageToPlayer (0 : ℚ) 90 baseState).firing = false :=
  ⟨by norm_num [baseState],
    (applyDamageToPlayer_respawn baseState 0 90 (by norm_num [baseState])).2.1,
    (applyDamageToPlayer_respawn baseState 0 90 (by norm_num [baseState])).2.2.2.2.2.2.1⟩

/-! ## C5: wave composition -/

theorem range_three : List.range 3 = [0, 1, 2] := rfl

/-- C5: spawning wave 3 produces exactly one hostile, of the boss
archetype; spawning wave 1 or wave 2 produces exactly three hostiles, all
of the basic archetype; and every spawned hostile starts with `hp` equal
to the `maxHp` of its spec. -/
theorem spawnNpcWave_wave_composition {α : Type} [LinearOrderedField α] [FloorRing α]
    (P : MathPrims α) (site : Vec3 α) (now : α) :
    (spawnNpcWave P site 3 now).map (fun n => n.spec.archetype) = [.boss] ∧
    (spawnNpcWave P site 1 now).map (fun n => n.spec.archetype) = [.basic, .basic, .basic] ∧
    (spawnNpcWave P site 2 now).map (fun n => n.spec.archetype) = [.basic, .basic, .basic] ∧
    (spawnNpcWave P site 3 now).map (fun n => n.hp)
      = (spawnNpcWave P site 3 now).map (fun n => n.spec.maxHp) ∧
    (spawnNpcWave P site 1 now).map (fun n => n.hp)
      = (spawnNpcWave P site 1 now).map (fun n => n.spec.maxHp) ∧
    (spawnNpcWave P site 2 now).map (fun n => n.hp)
      = (spawnNpcWave P site 2 now).map (fun n => n.spec.maxHp) := by
  refine ⟨?_, ?_, ?_, ?_, ?_, ?_⟩ <;>
    simp [spawnNpcWave, range_three, BOSS_NPC_SPEC, BASIC_NPC_SPEC]

/-! ## C4: encounter wave guard -/

/-- C4: a tick of the encounter orchestrator leaves the state untouched
while any hostile is alive; the stored wave never exceeds 3; and whenever
the wave changes, the hostile set was empty, the spawn time had passed,
the previous wave was below 3, the wave advanced by exactly one, and the
new wave was spawned at the encounter site. -/
theorem stepEncounter_wave_guard {α : Type} [LinearOrderedField α] [FloorRing α]
    (P : MathPrims α) (nowMs : α) (s : SimState α) (enc : Encounter α)
    (henc : s.encounter = some enc) (hw : enc.wave ≤ 3) :
    (s.npcs ≠ [] → stepEncounter P nowMs s = s) ∧
    (∀ e2, (stepEncounter P nowMs s).encounter = some e2 →
      e2.wave ≤ 3 ∧
      (e2.wave ≠ enc.wave →
        s.npcs = [] ∧ enc.nextWaveAt ≤ nowMs ∧ enc.wave < 3 ∧ e2.wave = enc.wave + 1 ∧
        (∀ site, (s.combatSites.find? fun c => c.key == enc.siteKey) = some site →
          (stepEncounter P nowMs s).npcs =
            (spawnNpcWave P site.posWorld (enc.wave + 1) nowMs).map
              (spawnedToMeta (enc.wave + 1))))) := by
  by_cases halive : 0 < s.npcs.length
  · have hs : stepEncounter P nowMs s = s := by
      simp only [stepEncounter, henc]
      rw [if_pos halive]
    refine ⟨fun _ => hs, fun e2 he2 => ?_⟩
    rw [hs, henc] at he2
    obtain rfl : enc = e2 := Option.some.inj he2
    exact ⟨hw, fun hne => absurd rfl hne⟩
  · have hempty : s.npcs = [] := by
      rcases hnp : s.npcs with _ | ⟨n, ns⟩
      · rfl
      · rw [hnp] at halive; exact absurd (by simp) halive
    by_cases hlate : nowMs < enc.nextWaveAt
    · have hs : stepEncounter P nowMs s = s := by
        simp only [stepEncounter, henc]
        rw [if_neg halive, if_pos hlate]
      refine ⟨fun _ => hs, fun e2 he2 => ?_⟩
      rw [hs, henc] at he2
      obtain rfl : enc = e2 := Option.some.inj he2
      exact ⟨hw, fun hne => absurd rfl hne⟩
    · by_cases hmax : 3 ≤ enc.wave
      · have hs : stepEncounter P nowMs s = s := by
          simp only [stepEncounter, henc]
          rw [if_neg halive, if_neg hlate, if_pos hmax]
        refine ⟨fun _ => hs, fun e2 he2 => ?_⟩
        rw [hs, henc] at he2
        obtain rfl : enc = e2 := Option.some.inj he2
        exact ⟨hw, fun hne => absurd rfl hne⟩
      · have hlt : enc.wave < 3 := lt_of_not_le hmax
        refine ⟨fun hne => absurd hempty hne, ?_⟩
        rcases hfind : s.combatSites.find? fun c => c.key == enc.siteKey with _ | site
        · have hs : stepEncounter P nowMs s =
              { s with encounter := some ⟨enc.siteKey, enc.wave + 1, nowMs + ENCOUNTER_WAVE_DELAY_MS⟩ } := by
            simp only [stepEncounter, henc]
            rw [if_neg halive, if_neg hlate, if_neg hmax]
            simp only [hfind]
          intro e2 he2
          rw [hs] at he2
          simp only at he2
          obtain rfl := Option.some.inj he2
          refine ⟨by simp; omega, fun _ => ⟨hempty, le_of_not_lt hlate, hlt, rfl, ?_⟩⟩
          intro site hsite
          rw [hfind] at hsite
          exact absurd hsite (by simp)
        · have hs : stepEncounter P nowMs s =
              { s with
                  encounter := some ⟨enc.siteKey, enc.wave + 1, nowMs + ENCOUNTER_WAVE_DELAY_MS⟩
                  npcs := s.npcs ++ (spawnNpcWave P site.posWorld (enc.wave + 1) nowMs).map (spawnedToMeta (enc.wave + 1))
                  npcSprites := s.npcSprites ++ ((spawnNpcWave P site.posWorld (enc.wave + 1) nowMs).map fun sp => sp.key) } := by
            simp only [stepEncounter, henc]
            rw [if_neg halive, if_neg hlate, if_neg hmax]
            simp only [hfind]
          intro e2 he2
          rw [hs] at he2
          simp only at he2
          obtain rfl := Option.some.inj he2
          refine ⟨by simp; omega, fun _ => ⟨hempty, le_of_not_lt hlate, hlt, rfl, ?_⟩⟩
          intro site1 hsite1
          rw [hfind] at hsite1
          obtain rfl : site = site1 := Option.some.inj hsite1
          rw [hs]
          simp [hempty]

/-- Example hostile used in the concrete states. -/
def cNpc : NpcMeta ℚ where
  key := "n1"
  name := "NPC 1-1"
  posWorld := ⟨1 / 10000, 0, 0⟩
  hp := 40
  maxHp := 40
  wave := 1
  spec := BASIC_NPC_SPEC
  nextFireAt := 0
  strafeDir := ⟨0, 0, 1⟩

/-- Concrete encounter state: wave 1 in flight with one live hostile. -/
def encState : SimState ℚ :=
  { baseState with
      npcs := [cNpc]
      npcSprites := [cNpc.key]
      combatSites := [{ key := "site0", name := "Combat Site 1", posWorld := ⟨1 / 50, 0, 0⟩ }]
      encounter := some { siteKey := "site0", wave := 1, nextWaveAt := 0 } }

/-- Witness for C4: with a live hostile the orchestrator does not advance,
however late the clock is. -/
theorem stepEncounter_wave_guard_witness :
    encState.encounter = some { siteKey := "site0", wave := 1, nextWaveAt := 0 } ∧
    stepEncounter testPrims 99999 encState = encState :=
  ⟨rfl,
    (stepEncounter_wave_guard testPrims 99999 encState
        { siteKey := "site0", wave := 1, nextWaveAt := 0 } rfl (by norm_num)).1
      (by simp [encState])⟩

/-! ## Record-map helper lemmas -/

theorem recGet_recDel {α : Type} (m : List (String × α)) (k : String) :
    recGet (recDel m k) k = none := by
  unfold recGet recDel
  induction m with
  | nil => rfl
  | cons e tl ih =>
    by_cases h : e.1 = k
    · simpa [List.filter_cons, h] using ih
    · simpa [List.filter_cons, h, List.find?_cons, beq_iff_eq] using ih

/-! ## C10: player shots against hostiles -/

/-- The npc list after `killNpc` is the input list without the hostiles of
the dead key (forced unlock does not touch the npc list). -/
theorem killNpc_npcs {α : Type} [LinearOrderedField α] [FloorRing α]
    (npc : NpcMeta α) (s : SimState α) :
    (killNpc npc s).npcs = s.npcs.filter fun n => n.key ≠ npc.key := by
  simp only [killNpc, unlockTarget]
  split <;> rfl

/-- The npc list after `damageNpc`: the entry of the key is overwritten
with the floored hp, and dropped when that hp is 0. -/
theorem damageNpc_npcs {α : Type} [LinearOrderedField α] [FloorRing α]
    (npc : NpcMeta α) (dmg : α) (s : SimState α) :
    (damageNpc npc dmg s).npcs =
      if max 0 (npc.hp - dmg) ≤ 0 then
        (s.npcs.map fun n =>
          if n.key == npc.key then { npc with hp := max 0 (npc.hp - dmg) } else n).filter
          fun n => n.key ≠ npc.key
      else
        s.npcs.map fun n =>
          if n.key == npc.key then { npc with hp := max 0 (npc.hp - dmg) } else n := by
  by_cases hdead : max 0 (npc.hp - dmg) ≤ 0 <;>
    by_cases hhp : (recGet s.targetTestHp npc.key).isSome <;>
      simp only [damageNpc, hdead, hhp, if_true, if_false, killNpc_npcs] <;> rfl

/-- Overwriting the entry of a key in an npc list commutes with looking
the key up: the lookup answers the overwritten entry. -/
theorem find?_map_overwrite {α : Type} (l : List (NpcMeta α)) (key : String)
    (npc0 npc1 : NpcMeta α) (h1 : npc1.key = key)
    (h0 : l.find? (fun n => n.key == key) = some npc0) :
    ((l.map fun n => if n.key == key then npc1 else n).find? fun n => n.key == key)
      = some npc1 := by
  induction l with
  | nil => simp at h0
  | cons a tl ih =>
    by_cases ha : a.key == key
    · simp only [List.map_cons, List.find?_cons, ha, if_true]
      simp [h1]
    · simp only [List.find?_cons, ha] at h0
      simp only [List.map_cons, List.find?_cons, ha, if_false]
      have : ¬ (a.key == key) = true := by simp_all
      simp only [this, if_false, Bool.false_eq_true]
      exact ih h0

/-- Extraction lemma: a space lookup that answers an npc is a hit in the
npc list, found under its own key. -/
theorem findSpaceByKey_npc {α : Type} [LinearOrderedField α] [FloorRing α]
    (s : SimState α) (k : String) (npc : NpcMeta α)
    (hm : findSpaceByKey s k = some (.npc npc)) :
    (s.npcs.find? fun n => n.key == k) = some npc ∧ npc.key = k := by
  have hfind : (s.npcs.find? fun n => n.key == k) = some npc := by
    unfold findSpaceByKey at hm
    rcases hf : s.npcs.find? fun n => n.key == k with _ | n0
    · rw [hf] at hm
      rcases hf2 : s.combatSites.find? fun c => c.key == k with _ | c0
      · rw [hf2] at hm
        rcases hf3 : s.celestials.find? fun c => c.key == k with _ | c1 <;>
          simp [hf3] at hm
      · rw [hf2] at hm
        simp at hm
    · rw [hf] at hm
      simp only [Option.some.injEq, SpaceMeta.npc.injEq] at hm
      rw [hf, hm]
  have hp := List.find?_some hfind
  refine ⟨hfind, ?_⟩
  simpa using hp

/-- C10: a resolved player shot against a hostile applies the sum of the
weapon armor and hull damage (14 with the default ship stats) to the
single hp pool of the hostile, floored at 0; a survivor keeps its updated
hp in the npc list, and a hostile driven to 0 leaves the list within the
same call. -/
theorem performShot_npc_damage {α : Type} [LinearOrderedField α] [FloorRing α]
    (s : SimState α) (k : String) (npc : NpcMeta α)
    (hm : findSpaceByKey s k = some (.npc npc)) :
    DEFAULT_SHIP_STATS.weapon.damage.armor + DEFAULT_SHIP_STATS.weapon.damage.hull = (14 : α) ∧
    0 ≤ max 0 (npc.hp - 14) ∧
    (0 < max 0 (npc.hp - 14) →
      (((performShot k s).npcs.find? fun n => n.key == npc.key).map fun n => n.hp)
        = some (max 0 (npc.hp - 14)) ∧
      (performShot k s).npcs.length = s.npcs.length) ∧
    (max 0 (npc.hp - 14) = 0 → ∀ n ∈ (performShot k s).npcs, n.key ≠ npc.key) := by
  have h14 : DEFAULT_SHIP_STATS.weapon.damage.armor + DEFAULT_SHIP_STATS.weapon.damage.hull
      = (14 : α) := by simp [DEFAULT_SHIP_STATS]; norm_num
  obtain ⟨hfind, hkey⟩ := findSpaceByKey_npc s k npc hm
  subst hkey
  have hshot : performShot npc.key s = damageNpc npc (14 : α) s := by
    unfold performShot
    rw [hm, h14]
  rw [hshot]
  refine ⟨h14, le_max_left _ _, ?_, ?_⟩
  · intro hpos
    have hnotle : ¬ max 0 (npc.hp - 14) ≤ 0 := not_le.mpr hpos
    rw [damageNpc_npcs, if_neg hnotle]
    constructor
    · rw [find?_map_overwrite s.npcs npc.key npc { npc with hp := max 0 (npc.hp - 14) } rfl hfind]
      rfl
    · simp
  · intro hzero n hn
    have hle : max 0 (npc.hp - 14) ≤ 0 := le_of_eq hzero
    rw [damageNpc_npcs, if_pos hle] at hn
    have := (List.mem_filter.mp hn).2
    simpa using this

/-- Concrete state holding one live hostile. -/
def shotState : SimState ℚ :=
  { baseState with npcs := [cNpc], npcSprites := [cNpc.key] }

/-- Witness for C10: shooting the example hostile leaves it at 26 hp. -/
theorem performShot_npc_damage_witness :
    findSpaceByKey shotState cNpc.key = some (.npc cNpc) ∧
    (((performShot cNpc.key shotState).npcs.find? fun n => n.key == cNpc.key).map fun n => n.hp)
      = some (max 0 (cNpc.hp - 14)) :=
  ⟨by simp [findSpaceByKey, shotState, baseState],
    (performShot_npc_damage shotState cNpc.key cNpc
        (by simp [findSpaceByKey, shotState, baseState])).2.2.1
      (by rw [show (max 0 (cNpc.hp - 14) : ℚ) = 26 by norm_num [cNpc, max_eq_right]]; norm_num)
      |>.1⟩

/-! ## C7: hostile death cleanup -/

/-- Sprite bookkeeping after `killNpc`. -/
theorem killNpc_npcSprites {α : Type} [LinearOrderedField α] [FloorRing α]
    (npc : NpcMeta α) (s : SimState α) :
    (killNpc npc s).npcSprites = s.npcSprites.filter fun x => x ≠ npc.key := by
  simp only [killNpc, unlockTarget]
  split <;> rfl

/-- Lock list after `killNpc`. -/
theorem killNpc_lockedKeys {α : Type} [LinearOrderedField α] [FloorRing α]
    (npc : NpcMeta α) (s : SimState α) :
    (killNpc npc s).lockedKeys =
      if npc.key ∈ s.lockedKeys then s.lockedKeys.filter fun x => x ≠ npc.key
      else s.lockedKeys := by
  simp only [killNpc, unlockTarget]
  split <;> simp_all

/-- Display health map after `killNpc`. -/
theorem killNpc_targetTestHp {α : Type} [LinearOrderedField α] [FloorRing α]
    (npc : NpcMeta α) (s : SimState α) :
    (killNpc npc s).targetTestHp =
      if npc.key ∈ s.lockedKeys then recDel s.targetTestHp npc.key
      else s.targetTestHp := by
  simp only [killNpc, unlockTarget]
  split <;> simp_all

/-- Active lock after `killNpc`. -/
theorem killNpc_activeKey {α : Type} [LinearOrderedField α] [FloorRing α]
    (npc : NpcMeta α) (s : SimState α) :
    (killNpc npc s).activeKey =
      if npc.key ∈ s.lockedKeys then
        (if s.activeKey ≠ some npc.key then s.activeKey
         else (s.lockedKeys.filter fun x => x ≠ npc.key).head?)
      else s.activeKey := by
  simp only [killNpc, unlockTarget]
  split <;> simp_all

/-- A lethal `damageNpc` is `killNpc` of the updated hostile on the state
with the overwritten npc list and display health. -/
theorem damageNpc_eq_killNpc {α : Type} [LinearOrderedField α] [FloorRing α]
    (npc : NpcMeta α) (dmg : α) (s : SimState α)
    (hdead : max 0 (npc.hp - dmg) ≤ 0) :
    damageNpc npc dmg s =
      killNpc { npc with hp := max 0 (npc.hp - dmg) }
        { s with
            npcs := s.npcs.map fun n =>
              if n.key == npc.key then { npc with hp := max 0 (npc.hp - dmg) } else n
            targetTestHp :=
              if (recGet s.targetTestHp npc.key).isSome then
                recSet s.targetTestHp npc.key
                  ((round (max 0 (npc.hp - dmg) / max 1 npc.maxHp * 100) : ℤ) : α)
              else s.targetTestHp } := by
  simp only [damageNpc]
  rw [if_pos hdead]
  by_cases hc : (recGet s.targetTestHp npc.key).isSome <;> simp [hc]

/-- C7: when a hostile is damaged to death, within the same call it is
removed from the npc list and the sprite bookkeeping, its key (when
locked) leaves both the lock list and the display health map, the active
lock is promoted to the first remaining locked key (or cleared) when the
dead hostile was active, and the invariant that the active key is a locked
key (or none) is preserved. -/
theorem damageNpc_death_cleanup {α : Type} [LinearOrderedField α] [FloorRing α]
    (npc : NpcMeta α) (dmg : α) (s : SimState α)
    (hkill : npc.hp ≤ dmg)
    (hinv : ∀ a, s.activeKey = some a → a ∈ s.lockedKeys) :
    (∀ n ∈ (damageNpc npc dmg s).npcs, n.key ≠ npc.key) ∧
    npc.key ∉ (damageNpc npc dmg s).npcSprites ∧
    (npc.key ∈ s.lockedKeys →
      npc.key ∉ (damageNpc npc dmg s).lockedKeys ∧
      recGet (damageNpc npc dmg s).targetTestHp npc.key = none) ∧
    (∀ a, (damageNpc npc dmg s).activeKey = some a →
      a ∈ (damageNpc npc dmg s).lockedKeys) ∧
    (s.activeKey = some npc.key →
      (damageNpc npc dmg s).activeKey = (s.lockedKeys.filter fun x => x ≠ npc.key).head?) := by
  have hdead : max 0 (npc.hp - dmg) ≤ 0 := max_le le_rfl (sub_nonpos.mpr hkill)
  rw [damageNpc_eq_killNpc npc dmg s hdead]
  rw [killNpc_npcs, killNpc_npcSprites, killNpc_lockedKeys, killNpc_targetTestHp,
    killNpc_activeKey]
  refine ⟨?_, ?_, ?_, ?_, ?_⟩
  · intro n hn
    have := (List.mem_filter.mp hn).2
    simpa using this
  · intro hmem
    have := (List.mem_filter.mp hmem).2
    simp at this
  · intro hlock
    refine ⟨?_, ?_⟩
    · rw [if_pos hlock]
      intro hmem
      have := (List.mem_filter.mp hmem).2
      simp at this
    · rw [if_pos hlock]
      exact recGet_recDel _ _
  · intro a ha
    by_cases hlock : npc.key ∈ s.lockedKeys
    · rw [if_pos hlock] at ha ⊢
      by_cases hact : s.activeKey = some npc.key
      · rw [if_neg (by simpa using hact)] at ha
        exact List.mem_of_mem_head? ha
      · rw [if_pos (by simpa using hact)] at ha
        have hmem := hinv a ha
        have hne : a ≠ npc.key := by
          intro h
          rw [h] at ha
          exact hact ha
        simp [List.mem_filter, hmem, hne]
    · rw [if_neg hlock] at ha ⊢
      exact hinv a ha
  · intro hact
    have hlock : npc.key ∈ s.lockedKeys := hinv npc.key hact
    rw [if_pos hlock, if_neg (by simpa using hact)]

/-- Concrete state for the C7 witness: the example hostile plus a second
key are locked, the hostile being the active lock. -/
def lockedState : SimState ℚ :=
  { baseState with
      npcs := [cNpc]
      npcSprites := [cNpc.key]
      lockedKeys := [cNpc.key, "other"]
      activeKey := some cNpc.key
      targetTestHp := [(cNpc.key, 100), ("other", 100)] }

/-- Witness for C7: a lethal 100-damage hit on the locked example hostile
promotes the other locked key. -/
theorem damageNpc_death_cleanup_witness :
    (cNpc.hp ≤ (100 : ℚ)) ∧
    cNpc.key ∉ (damageNpc cNpc 100 lockedState).lockedKeys ∧
    (damageNpc cNpc 100 lockedState).activeKey
      = (lockedState.lockedKeys.filter fun x => x ≠ cNpc.key).head? :=
  ⟨by norm_num [cNpc],
    ((damageNpc_death_cleanup cNpc 100 lockedState (by norm_num [cNpc])
        (by intro a ha; simp [lockedState, baseState] at ha; simp [lockedState, baseState, ha.symm])).2.2.1
      (by simp [lockedState, baseState])).1,
    (damageNpc_death_cleanup cNpc 100 lockedState (by norm_num [cNpc])
        (by intro a ha; simp [lockedState, baseState] at ha; simp [lockedState, baseState, ha.symm])).2.2.2.2
      (by simp [lockedState, baseState])⟩

/-! ## C6: lock acquisition -/

theorem Vec3.sub_def {α : Type} [LinearOrderedField α] (a b : Vec3 α) :
    a - b = ⟨a.x - b.x, a.y - b.y, a.z - b.z⟩ := rfl

theorem Vec3.add_def {α : Type} [LinearOrderedField α] (a b : Vec3 α) :
    a + b = ⟨a.x + b.x, a.y + b.y, a.z + b.z⟩ := rfl

/-- The display health a fresh lock initializes for a target: the live
percentage for a hostile, 100 otherwise. -/
def initialHp {α : Type} [LinearOrderedField α] [FloorRing α] (meta : SpaceMeta α) : α :=
  match meta with
  | .npc n => ((round (n.hp / max 1 n.maxHp * 100) : ℤ) : α)
  | _ => 100

/-- C6 (amended): `ensureLocked key` succeeds exactly when the effective
distance is within lock range, fewer than `MAX_LOCKS` keys are locked and
the key is not already locked; on success the key is appended in insertion
order, the active key defaults to it when none was active, and the display
health entry is initialized when absent. An out-of-range call, and (under
the lock-state invariants) a call for an already-locked key, is a complete
no-op. An at-capacity in-range call leaves the lock list and active key
unchanged but still writes the display-health entry of the never-locked
key. -/
theorem ensureLocked_characterization {α : Type} [LinearOrderedField α] [FloorRing α]
    (P : MathPrims α) (key : String) (s : SimState α) (meta : SpaceMeta α)
    (hm : findSpaceByKey s key = some meta)
    (hinv1 : s.activeKey = none → s.lockedKeys = [])
    (hinv2 : ∀ k ∈ s.lockedKeys, (recGet s.targetTestHp k).isSome = true) :
    (¬ effectiveDistanceMeters P s.shipPos meta ≤ LOCK_RANGE_M → ensureLocked P key s = s) ∧
    (effectiveDistanceMeters P s.shipPos meta ≤ LOCK_RANGE_M →
      (ensureLocked P key s).targetTestHp =
        (if (recGet s.targetTestHp key).isSome then s.targetTestHp
         else recSet s.targetTestHp key (initialHp meta)) ∧
      (key ∈ s.lockedKeys → ensureLocked P key s = s) ∧
      (key ∉ s.lockedKeys → s.lockedKeys.length < MAX_LOCKS →
        (ensureLocked P key s).lockedKeys = s.lockedKeys ++ [key] ∧
        (ensureLocked P key s).activeKey = some (s.activeKey.getD key)) ∧
      (key ∉ s.lockedKeys → MAX_LOCKS ≤ s.lockedKeys.length →
        (ensureLocked P key s).lockedKeys = s.lockedKeys ∧
        (ensureLocked P key s).activeKey = s.activeKey)) := by
  constructor
  · intro hfar
    have hc : ¬ canLockNow P s meta := by simpa [canLockNow] using hfar
    simp only [ensureLocked, hm]
    rw [if_neg hc]
  · intro hnear
    have hlock : canLockNow P s meta := by simpa [canLockNow] using hnear
    have heq : ensureLocked P key s =
        { s with
            lockedKeys :=
              if key ∈ s.lockedKeys then s.lockedKeys
              else if MAX_LOCKS ≤ s.lockedKeys.length then s.lockedKeys
              else s.lockedKeys ++ [key]
            targetTestHp :=
              if (recGet s.targetTestHp key).isSome then s.targetTestHp
              else recSet s.targetTestHp key (initialHp meta)
            activeKey := some (s.activeKey.getD key) } := by
      simp only [ensureLocked, hm]
      rw [if_pos hlock]
      rcases meta with c | st | n <;> simp [initialHp]
    rw [heq]
    refine ⟨rfl, ?_, ?_, ?_⟩
    · intro hmem
      have hact : s.activeKey ≠ none := by
        intro hnone
        rw [hinv1 hnone] at hmem
        simp at hmem
      obtain ⟨a, ha⟩ := Option.ne_none_iff_exists'.mp hact
      have hhp : (recGet s.targetTestHp key).isSome = true := hinv2 key hmem
      rw [if_pos hmem, if_pos hhp, ha, Option.getD_some, ← ha]
    · intro hmem hlen
      rw [if_neg hmem, if_neg (not_le.mpr hlen)]
      exact ⟨rfl, rfl⟩
    · intro hmem hlen
      rw [if_neg hmem, if_pos hlen]
      have hne : s.lockedKeys ≠ [] := by
        intro hnil
        rw [hnil] at hlen
        simp [MAX_LOCKS] at hlen
      have hact : s.activeKey ≠ none := fun hnone => hne (hinv1 hnone)
      obtain ⟨a, ha⟩ := Option.ne_none_iff_exists'.mp hact
      rw [ha, Option.getD_some]
      exact ⟨rfl, rfl⟩

/-- The example hostile placed exactly 100 km (lock range) from the origin. -/
def sixthNpc : NpcMeta ℚ := { cNpc with key := "n6", posWorld := ⟨1 / 10000, 0, 0⟩ }

theorem sqrt_lock_range : Rat.sqrt (1 / 100000000) = 1 / 10000 := by
  rw [show (1 / 100000000 : ℚ) = (1 / 10000) * (1 / 10000) by norm_num, Rat.sqrt_eq]
  exact abs_of_nonneg (by norm_num)

/-- Five foreign keys locked (capacity), the example hostile in range and
not locked. -/
def cap5State : SimState ℚ :=
  { baseState with
      npcs := [sixthNpc]
      npcSprites := [sixthNpc.key]
      lockedKeys := ["k1", "k2", "k3", "k4", "k5"]
      activeKey := some ("k1")
      targetTestHp := [("k1", 100), ("k2", 100), ("k3", 100), ("k4", 100), ("k5", 100)] }

/-- The surface-adjusted distance of the example hostile from the origin
is exactly the lock range. -/
theorem sixthNpc_pos : sixthNpc.posWorld = ⟨1 / 10000, 0, 0⟩ := by
  simp [sixthNpc, cNpc]

theorem effdist_sixth :
    effectiveDistanceMeters testPrims (⟨0, 0, 0⟩ : Vec3 ℚ) (.npc sixthNpc) = 100000 := by
  unfold effectiveDistanceMeters
  simp only [SpaceMeta.posWorld, Vec3.distanceTo, Vec3.length,
    Vec3.lengthSq, Vec3.sub_def, sixthNpc_pos, testPrims, SCALE_FACTOR]
  norm_num [sqrt_lock_range]

theorem findSpace_cap5 :
    findSpaceByKey cap5State sixthNpc.key = some (.npc sixthNpc) := by
  simp [findSpaceByKey, cap5State, baseState, sixthNpc, cNpc]

theorem canLock_cap5 : canLockNow testPrims cap5State (.npc sixthNpc) := by
  unfold canLockNow
  rw [show cap5State.shipPos = (⟨0, 0, 0⟩ : Vec3 ℚ) from rfl, effdist_sixth]
  norm_num [LOCK_RANGE_M]

/-- Evaluation of the at-capacity lock attempt: the lock list and active
key stay, but the display-health map gains the entry of the unlocked key. -/
theorem ensureLocked_cap5_eval :
    ensureLocked testPrims sixthNpc.key cap5State
      = { cap5State with
            targetTestHp := cap5State.targetTestHp ++ [(sixthNpc.key, 100)] } := by
  simp only [ensureLocked, findSpace_cap5]
  rw [if_pos canLock_cap5]
  norm_num [cap5State, baseState, sixthNpc, cNpc, recGet, recSet, initialHp, MAX_LOCKS,
    BASIC_NPC_SPEC, max_def]
  simp

/-- C6 counterexample: with five locks held and an in-range never-locked
hostile, `ensureLocked` refuses the lock but is not a no-op — it writes
the display-health entry of the rejected key, so the claimed
"no state change at capacity" fails on the code. -/
theorem ensureLocked_at_capacity_not_noop :
    cap5State.lockedKeys.length = 5 ∧
    sixthNpc.key ∉ cap5State.lockedKeys ∧
    effectiveDistanceMeters testPrims cap5State.shipPos (.npc sixthNpc) ≤ LOCK_RANGE_M ∧
    (ensureLocked testPrims sixthNpc.key cap5State).lockedKeys = cap5State.lockedKeys ∧
    recGet cap5State.targetTestHp sixthNpc.key = none ∧
    recGet (ensureLocked testPrims sixthNpc.key cap5State).targetTestHp sixthNpc.key
      = some 100 ∧
    ensureLocked testPrims sixthNpc.key cap5State ≠ cap5State := by
  refine ⟨by simp [cap5State, baseState],
    by simp [cap5State, baseState, sixthNpc, cNpc], ?_, ?_, ?_, ?_, ?_⟩
  · rw [show cap5State.shipPos = (⟨0, 0, 0⟩ : Vec3 ℚ) from rfl, effdist_sixth]
    norm_num [LOCK_RANGE_M]
  · rw [ensureLocked_cap5_eval]
  · simp [cap5State, baseState, sixthNpc, cNpc, recGet]
  · rw [ensureLocked_cap5_eval]
    simp [cap5State, baseState, sixthNpc, cNpc, recGet]
  · rw [ensureLocked_cap5_eval]
    intro h
    have := congrArg (fun st => recGet st.targetTestHp sixthNpc.key) h
    simp [cap5State, baseState, sixthNpc, cNpc, recGet] at this

/-- Four foreign keys locked: one slot free. -/
def cap4State : SimState ℚ :=
  { cap5State with
      lockedKeys := ["k1", "k2", "k3", "k4"]
      targetTestHp := [("k1", 100), ("k2", 100), ("k3", 100), ("k4", 100)] }

/-- Witness for C6 (amended): with four locks held the in-range hostile is
appended to the lock list. -/
theorem ensureLocked_characterization_witness :
    findSpaceByKey cap4State sixthNpc.key = some (.npc sixthNpc) ∧
    (ensureLocked testPrims sixthNpc.key cap4State).lockedKeys
      = cap4State.lockedKeys ++ [sixthNpc.key] :=
  ⟨by simp [findSpaceByKey, cap4State, cap5State, baseState, sixthNpc, cNpc],
    (((ensureLocked_characterization testPrims sixthNpc.key cap4State (.npc sixthNpc)
          (by simp [findSpaceByKey, cap4State, cap5State, baseState, sixthNpc, cNpc])
          (by intro h; simp [cap4State, cap5State, baseState] at h)
          (by
            intro k hk
            simp [cap4State, cap5State, baseState] at hk
            rcases hk with rfl | rfl | rfl | rfl <;>
              simp [recGet, cap4State, cap5State, baseState])).2
        (by
          rw [show cap4State.shipPos = (⟨0, 0, 0⟩ : Vec3 ℚ) from rfl, effdist_sixth]
          norm_num [LOCK_RANGE_M])).2.2.1
      (by simp [cap4State, cap5State, baseState, sixthNpc, cNpc])
      (by simp [cap4State, cap5State, baseState, MAX_LOCKS])).1⟩

/-! ## C8: autofire range gating -/

/-- C8 (amended): on a tick with firing enabled, an active lock still in
the lock list and an elapsed cooldown, the controller fires exactly when
the raw center distance (not the surface-adjusted effective distance) to
the target is within weapon range, and consumes the cooldown on this
branch regardless of range. -/
theorem autofire_uses_center_distance {α : Type} [LinearOrderedField α] [FloorRing α]
    (P : MathPrims α) (now : α) (s : SimState α) (k : String) (meta : SpaceMeta α)
    (hf : s.firing = true) (ha : s.activeKey = some k) (hl : k ∈ s.lockedKeys)
    (ht : s.nextFireAt ≤ now) (hm : findSpaceByKey s k = some meta) :
    autofireStep P now s =
      { (if centerDistanceMeters P s.shipPos meta.posWorld ≤ DEFAULT_SHIP_STATS.weapon.range_m
         then performShot k s else s) with
          nextFireAt := now + DEFAULT_SHIP_STATS.weapon.cooldownMs } := by
  unfold autofireStep
  rw [hf, ha]
  simp only [if_true]
  rw [if_pos ht, if_pos hl]
  simp only [hm]

/-- Planet celestial: radius 6000 km, center 6005 km from the origin, so
the ship sits 5 km above the surface (effective distance 0) while the
center distance is far beyond the 25 km weapon range. -/
def planetMeta : CelestialMeta ℚ where
  key := "p1"
  name := "Planet"
  kind := .planet
  posWorld := ⟨6005 / 1000000, 0, 0⟩
  radiusWorld := 6 / 1000
  warpInWorld := ⟨0, 0, 0⟩

/-- Firing at the locked planet. -/
def planetState : SimState ℚ :=
  { baseState with
      celestials := [planetMeta]
      lockedKeys := [planetMeta.key]
      activeKey := some planetMeta.key
      targetTestHp := [(planetMeta.key, 100)]
      firing := true
      nextFireAt := 0 }

theorem sqrt_planet : Rat.sqrt (1442401 / 40000000000) = 6005 / 1000000 := by
  rw [show (1442401 / 40000000000 : ℚ) = (1201 / 200000) * (1201 / 200000) by norm_num,
    Rat.sqrt_eq, abs_of_nonneg (by norm_num : (0 : ℚ) ≤ 1201 / 200000)]
  norm_num

theorem centerdist_planet :
    centerDistanceMeters testPrims (⟨0, 0, 0⟩ : Vec3 ℚ) planetMeta.posWorld = 6005000 := by
  unfold centerDistanceMeters
  simp only [Vec3.distanceTo, Vec3.length, Vec3.lengthSq, Vec3.sub_def, testPrims,
    SCALE_FACTOR, show planetMeta.posWorld = ⟨6005 / 1000000, 0, 0⟩ from rfl]
  norm_num [sqrt_planet]

theorem effdist_planet :
    effectiveDistanceMeters testPrims (⟨0, 0, 0⟩ : Vec3 ℚ) (.cel planetMeta) = 0 := by
  unfold effectiveDistanceMeters
  simp only [SpaceMeta.posWorld, Vec3.distanceTo, Vec3.length, Vec3.lengthSq, Vec3.sub_def,
    testPrims, SCALE_FACTOR, show planetMeta.posWorld = ⟨6005 / 1000000, 0, 0⟩ from rfl,
    show planetMeta.kind = CelKind.planet from rfl]
  norm_num [sqrt_planet, WARP_IN_BUFFER_M,
    show planetMeta.radiusWorld = 6 / 1000 from rfl]
  decide

theorem findSpace_planet :
    findSpaceByKey planetState planetMeta.key = some (.cel planetMeta) := by
  simp [findSpaceByKey, planetState, baseState]

/-- Evaluation: only the cooldown moves; no shot is resolved. -/
theorem autofire_planet_eval :
    autofireStep testPrims 1000 planetState
      = { planetState with nextFireAt := 1000 + DEFAULT_SHIP_STATS.weapon.cooldownMs } := by
  rw [autofire_uses_center_distance testPrims 1000 planetState planetMeta.key
    (.cel planetMeta) rfl rfl (by simp [planetState, baseState])
    (by norm_num [planetState, baseState]) findSpace_planet]
  rw [show planetState.shipPos = (⟨0, 0, 0⟩ : Vec3 ℚ) from rfl]
  rw [show (SpaceMeta.cel planetMeta).posWorld = planetMeta.posWorld from rfl,
    centerdist_planet]
  rw [if_neg (by norm_num [DEFAULT_SHIP_STATS])]

/-- C8 counterexample: the ship hangs 5 km above a locked planet, so the
surface-adjusted effective distance (0) is within the 25 km weapon range,
firing is hot and the cooldown has elapsed — yet no shot is resolved (the
display health stays at 100 instead of dropping to 95) while the cooldown
is still consumed, because the code gates the shot on the raw center
distance (6005 km). -/
theorem autofire_effective_distance_refuted :
    effectiveDistanceMeters testPrims planetState.shipPos (.cel planetMeta)
      ≤ DEFAULT_SHIP_STATS.weapon.range_m ∧
    planetState.firing = true ∧
    planetState.activeKey = some planetMeta.key ∧
    planetMeta.key ∈ planetState.lockedKeys ∧
    planetState.nextFireAt ≤ 1000 ∧
    findSpaceByKey planetState planetMeta.key = some (.cel planetMeta) ∧
    (autofireStep testPrims 1000 planetState).targetTestHp = planetState.targetTestHp ∧
    recGet (autofireStep testPrims 1000 planetState).targetTestHp planetMeta.key
      = some 100 ∧
    (autofireStep testPrims 1000 planetState).nextFireAt
      = 1000 + DEFAULT_SHIP_STATS.weapon.cooldownMs := by
  refine ⟨?_, rfl, rfl, by simp [planetState, baseState],
    by norm_num [planetState, baseState], findSpace_planet, ?_, ?_, ?_⟩
  · rw [show planetState.shipPos = (⟨0, 0, 0⟩ : Vec3 ℚ) from rfl, effdist_planet]
    norm_num [DEFAULT_SHIP_STATS]
  · rw [autofire_planet_eval]
  · rw [autofire_planet_eval]
    simp [planetState, baseState, recGet]
  · rw [autofire_planet_eval]

/-! ## C3: warp align gating -/

section NavPreservation

variable {α : Type} [LinearOrderedField α] [FloorRing α]

theorem unlockTarget_nav (key : String) (s : SimState α) :
    (unlockTarget key s).warp = s.warp ∧ (unlockTarget key s).shipPos = s.shipPos ∧
    (unlockTarget key s).shipVel = s.shipVel ∧ (unlockTarget key s).navDir = s.navDir :=
  ⟨rfl, rfl, rfl, rfl⟩

theorem killNpc_nav (npc : NpcMeta α) (s : SimState α) :
    (killNpc npc s).warp = s.warp ∧ (killNpc npc s).shipPos = s.shipPos ∧
    (killNpc npc s).shipVel = s.shipVel ∧ (killNpc npc s).navDir = s.navDir := by
  refine ⟨?_, ?_, ?_, ?_⟩ <;> (simp only [killNpc, unlockTarget]; split <;> rfl)

theorem damageNpc_nav (npc : NpcMeta α) (dmg : α) (s : SimState α) :
    (damageNpc npc dmg s).warp = s.warp ∧ (damageNpc npc dmg s).shipPos = s.shipPos ∧
    (damageNpc npc dmg s).shipVel = s.shipVel ∧ (damageNpc npc dmg s).navDir = s.navDir := by
  refine ⟨?_, ?_, ?_, ?_⟩
  · simp only [damageNpc]
    split
    · rw [(killNpc_nav _ _).1]; split <;> rfl
    · split <;> rfl
  · simp only [damageNpc]
    split
    · rw [(killNpc_nav _ _).2.1]; split <;> rfl
    · split <;> rfl
  · simp only [damageNpc]
    split
    · rw [(killNpc_nav _ _).2.2.1]; split <;> rfl
    · split <;> rfl
  · simp only [damageNpc]
    split
    · rw [(killNpc_nav _ _).2.2.2]; split <;> rfl
    · split <;> rfl

theorem performShot_nav (key : String) (s : SimState α) :
    (performShot key s).warp = s.warp ∧ (performShot key s).shipPos = s.shipPos ∧
    (performShot key s).shipVel = s.shipVel ∧ (performShot key s).navDir = s.navDir := by
  refine ⟨?_, ?_, ?_, ?_⟩ <;>
    (simp only [performShot]
     split
     · rfl
     · split <;>
         first
         | rfl
         | exact (damageNpc_nav _ _ _).1
         | exact (damageNpc_nav _ _ _).2.1
         | exact (damageNpc_nav _ _ _).2.2.1
         | exact (damageNpc_nav _ _ _).2.2.2)

theorem autofireStep_nav (P : MathPrims α) (now : α) (s : SimState α) :
    (autofireStep P now s).warp = s.warp ∧ (autofireStep P now s).shipPos = s.shipPos ∧
    (autofireStep P now s).shipVel = s.shipVel ∧
    (autofireStep P now s).navDir = s.navDir := by
  refine ⟨?_, ?_, ?_, ?_⟩ <;>
    (simp only [autofireStep]
     split
     · split
       · rfl
       · split
         · split
           · split <;>
               first
               | rfl
               | (split <;>
                   first
                   | rfl
                   | exact (performShot_nav _ _).1
                   | exact (performShot_nav _ _).2.1
                   | exact (performShot_nav _ _).2.2.1
                   | exact (performShot_nav _ _).2.2.2)
           · rfl
         · rfl
     · rfl)

end NavPreservation

section AlignAccessors

variable {α : Type} [LinearOrderedField α] [FloorRing α]

/-- The desired direction of an aligning warp: the unit vector toward the
destination. -/
def warpAlignDesired (P : MathPrims α) (s : SimState α) (w : WarpState α) : Vec3 α :=
  Vec3.normalize P (w.destPos - s.shipPos)

/-- The nav direction after this align tick's bounded turn. -/
def warpAlignNav (P : MathPrims α) (dt : α) (s : SimState α) (w : WarpState α) : Vec3 α :=
  updateNavDirection P s.navDir (warpAlignDesired P s w) dt

/-- The ship speed after this align tick's acceleration toward the align
speed. -/
def warpAlignNewSpeed (P : MathPrims α) (dt : α) (s : SimState α) : α :=
  let alignSpeed := SUBLIGHT_MAX_SPEED * WARP_ALIGN_SPEED_FRAC
  let v := Vec3.length P s.shipVel
  if v < alignSpeed then min alignSpeed (v + SUBLIGHT_ACCEL * dt)
  else max alignSpeed (v - SUBLIGHT_DECEL * dt)

/-- Shape of an align-phase warp tick that has not yet arrived, written
with the align accessors. -/
theorem warpStep_align_eq (P : MathPrims α) (dt : α) (s : SimState α) (w : WarpState α)
    (hph : w.phase = .align)
    (hfar : ¬ Vec3.length P (w.destPos - s.shipPos)
      ≤ max (DEFAULT_SHIP_STATS.size_m * SCALE_FACTOR * 10) (1 / 10000000)) :
    warpStep P dt s w =
      if Vec3.angleTo P (warpAlignNav P dt s w) (warpAlignDesired P s w)
            ≤ WARP_ALIGN_ANGLE_EPS P ∧
          SUBLIGHT_MAX_SPEED * WARP_ALIGN_SPEED_FRAC * (98 / 100)
            ≤ warpAlignNewSpeed P dt s ∧
          WARP_ALIGN_MIN_TIME ≤ w.alignTime + dt then
        { s with
            warp := some { w with phase := .warp, alignTime := w.alignTime + dt }
            navDir := warpAlignDesired P s w
            shipForward := warpAlignDesired P s w
            shipVel := (warpAlignDesired P s w).smul
              (max WARP_MIN_SPEED
                (Vec3.length P ((warpAlignNav P dt s w).smul (warpAlignNewSpeed P dt s))))
            shipPos := s.shipPos +
              ((warpAlignNav P dt s w).smul (warpAlignNewSpeed P dt s)).smul dt }
      else
        { s with
            warp := some { w with alignTime := w.alignTime + dt }
            navDir := warpAlignNav P dt s w
            shipForward := warpAlignNav P dt s w
            shipVel := (warpAlignNav P dt s w).smul (warpAlignNewSpeed P dt s)
            shipPos := s.shipPos +
              ((warpAlignNav P dt s w).smul (warpAlignNewSpeed P dt s)).smul dt } := by
  simp only [warpStep, warpAlignNav, warpAlignDesired, warpAlignNewSpeed]
  rw [if_neg hfar, hph]

end AlignAccessors

/-- C3: a movement tick can switch an aligning warp to the cruise phase
only when the accumulated align time (including this tick) has reached
`WARP_ALIGN_MIN_TIME`, the heading error is within the angle epsilon and
the speed is at least 98 percent of the align speed — all three are
necessary; and any surviving warp state carries the accumulated align
time. -/
theorem warp_align_min_time_gate {α : Type} [LinearOrderedField α] [FloorRing α]
    (P : MathPrims α) (now dt : α) (s : SimState α) (w : WarpState α)
    (hw : s.warp = some w) (hph : w.phase = .align)
    (hcruise : ((stepMovement P now dt s).warp.map fun w2 => w2.phase) = some .warp) :
    WARP_ALIGN_MIN_TIME ≤ w.alignTime + dt ∧
    Vec3.angleTo P (warpAlignNav P dt s w) (warpAlignDesired P s w)
      ≤ WARP_ALIGN_ANGLE_EPS P ∧
    SUBLIGHT_MAX_SPEED * WARP_ALIGN_SPEED_FRAC * (98 / 100)
      ≤ warpAlignNewSpeed P dt s ∧
    (∀ w2, (stepMovement P now dt s).warp = some w2 → w2.alignTime = w.alignTime + dt) := by
  obtain ⟨hwp, hpp, hvp, hnp⟩ := autofireStep_nav P now s
  have hD : warpAlignDesired P (autofireStep P now s) w = warpAlignDesired P s w := by
    unfold warpAlignDesired; rw [hpp]
  have hN : warpAlignNav P dt (autofireStep P now s) w = warpAlignNav P dt s w := by
    unfold warpAlignNav; rw [hnp, hD]
  have hS : warpAlignNewSpeed P dt (autofireStep P now s) = warpAlignNewSpeed P dt s := by
    unfold warpAlignNewSpeed; rw [hvp]
  have hstep : stepMovement P now dt s = warpStep P dt (autofireStep P now s) w := by
    simp only [stepMovement, hwp.trans hw]
  by_cases harr : Vec3.length P (w.destPos - (autofireStep P now s).shipPos)
      ≤ max (DEFAULT_SHIP_STATS.size_m * SCALE_FACTOR * 10) (1 / 10000000)
  · have hnone : (stepMovement P now dt s).warp = none := by
      rw [hstep]
      simp only [warpStep]
      rw [if_pos harr]
    rw [hnone] at hcruise
    simp at hcruise
  · have halt : ∀ w2, (stepMovement P now dt s).warp = some w2 →
        w2.alignTime = w.alignTime + dt := by
      intro w2 hw2
      rw [hstep, warpStep_align_eq P dt _ w hph harr] at hw2
      split at hw2 <;>
        (simp only [Option.some.injEq] at hw2; rw [← hw2])
    rw [hstep, warpStep_align_eq P dt _ w hph harr, hN, hD, hS] at hcruise
    split at hcruise
    · rename_i hcond
      exact ⟨hcond.2.2, hcond.1, hcond.2.1, halt⟩
    · simp [hph] at hcruise

/-- Concrete aligning warp: heading already on target, speed already at
align speed, align clock past the minimum. -/
def wAlign : WarpState ℚ where
  phase := .align
  destPos := ⟨3, 0, 0⟩
  centerPos := ⟨3, 0, 0⟩
  targetName := "Target"
  targetKey := "t1"
  alignTime := 1

/-- Ship state carrying the concrete aligning warp. -/
def alignState : SimState ℚ :=
  { baseState with shipVel := ⟨9 / 4000000, 0, 0⟩, warp := some wAlign }

theorem sqrt_nine : Rat.sqrt (9 : ℚ) = 3 := by
  rw [show (9 : ℚ) = 3 * 3 by norm_num, Rat.sqrt_eq]
  exact abs_of_nonneg (by norm_num)

theorem sqrt_velsq : Rat.sqrt (81 / 16000000000000 : ℚ) = 9 / 4000000 := by
  rw [show (81 / 16000000000000 : ℚ) = (9 / 4000000) * (9 / 4000000) by norm_num,
    Rat.sqrt_eq]
  exact abs_of_nonneg (by norm_num)

theorem alignState_autofire : autofireStep testPrims 0 alignState = alignState := by
  simp [autofireStep, show alignState.firing = false from rfl]

theorem alignState_step :
    stepMovement testPrims 0 (1 / 100) alignState
      = warpStep testPrims (1 / 100) alignState wAlign := by
  simp only [stepMovement, alignState_autofire, show alignState.warp = some wAlign from rfl]

theorem alignState_far :
    ¬ Vec3.length testPrims (wAlign.destPos - alignState.shipPos)
      ≤ max (DEFAULT_SHIP_STATS.size_m * SCALE_FACTOR * 10) (1 / 10000000) := by
  norm_num [Vec3.length, Vec3.lengthSq, Vec3.sub_def,
    show wAlign.destPos = (⟨3, 0, 0⟩ : Vec3 ℚ) from rfl,
    show alignState.shipPos = (⟨0, 0, 0⟩ : Vec3 ℚ) from rfl, testPrims, sqrt_nine,
    DEFAULT_SHIP_STATS, SCALE_FACTOR, max_def]

theorem alignState_desired :
    warpAlignDesired testPrims alignState wAlign = ⟨1, 0, 0⟩ := by
  unfold warpAlignDesired
  norm_num [Vec3.normalize, Vec3.length, Vec3.lengthSq, Vec3.sub_def, Vec3.smul,
    show wAlign.destPos = (⟨3, 0, 0⟩ : Vec3 ℚ) from rfl,
    show alignState.shipPos = (⟨0, 0, 0⟩ : Vec3 ℚ) from rfl, testPrims, sqrt_nine]

theorem alignState_nav :
    warpAlignNav testPrims (1 / 100) alignState wAlign = ⟨1, 0, 0⟩ := by
  unfold warpAlignNav
  rw [alignState_desired]
  unfold updateNavDirection
  norm_num [Vec3.normalize, Vec3.length, Vec3.lengthSq, Vec3.angleTo, Vec3.dot, Vec3.smul,
    show alignState.navDir = (⟨1, 0, 0⟩ : Vec3 ℚ) from rfl, testPrims]

theorem alignState_speed :
    warpAlignNewSpeed testPrims (1 / 100) alignState = 9 / 4000000 := by
  unfold warpAlignNewSpeed
  norm_num [Vec3.length, Vec3.lengthSq,
    show alignState.shipVel = (⟨9 / 4000000, 0, 0⟩ : Vec3 ℚ) from rfl, testPrims,
    sqrt_velsq, SUBLIGHT_MAX_SPEED, SCALE_FACTOR, WARP_ALIGN_SPEED_FRAC, SUBLIGHT_ACCEL,
    SUBLIGHT_DECEL, max_def, min_def]

theorem alignState_cond :
    Vec3.angleTo testPrims (warpAlignNav testPrims (1 / 100) alignState wAlign)
        (warpAlignDesired testPrims alignState wAlign) ≤ WARP_ALIGN_ANGLE_EPS testPrims ∧
    SUBLIGHT_MAX_SPEED * WARP_ALIGN_SPEED_FRAC * (98 / 100)
      ≤ warpAlignNewSpeed testPrims (1 / 100) alignState ∧
    WARP_ALIGN_MIN_TIME ≤ wAlign.alignTime + 1 / 100 := by
  refine ⟨?_, ?_, ?_⟩
  · rw [alignState_nav, alignState_desired]
    norm_num [Vec3.angleTo, Vec3.dot, Vec3.lengthSq, testPrims, WARP_ALIGN_ANGLE_EPS]
  · rw [alignState_speed]
    norm_num [SUBLIGHT_MAX_SPEED, WARP_ALIGN_SPEED_FRAC, SCALE_FACTOR]
  · norm_num [WARP_ALIGN_MIN_TIME, show wAlign.alignTime = 1 from rfl]

theorem alignState_cruise :
    ((stepMovement testPrims 0 (1 / 100) alignState).warp.map fun w2 => w2.phase)
      = some WarpPhase.warp := by
  rw [alignState_step,
    warpStep_align_eq testPrims (1 / 100) alignState wAlign rfl alignState_far,
    if_pos alignState_cond]
  rfl

/-- Witness for C3: the concrete aligning warp transitions on this tick,
and the gate theorem applies to it. -/
theorem warp_align_min_time_gate_witness :
    alignState.warp = some wAlign ∧ wAlign.phase = WarpPhase.align ∧
    WARP_ALIGN_MIN_TIME ≤ wAlign.alignTime + 1 / 100 :=
  ⟨rfl, rfl,
    (warp_align_min_time_gate testPrims 0 (1 / 100) alignState wAlign rfl rfl
        alignState_cruise).1⟩

/-! ## C9: spawn strafe geometry -/

theorem lengthSq_strafe (x : ℝ) :
    Vec3.lengthSq (⟨0, -Real.sin x, Real.cos x⟩ : Vec3 ℝ) = 1 := by
  simp only [Vec3.lengthSq]
  nlinarith [Real.sin_sq_add_cos_sq x]

theorem dot_strafe_self (x : ℝ) :
    Vec3.dot (⟨0, -Real.sin x, Real.cos x⟩ : Vec3 ℝ) ⟨0, -Real.sin x, Real.cos x⟩ = 1 := by
  simp only [Vec3.dot]
  nlinarith [Real.sin_sq_add_cos_sq x]

/-- A vector of unit square length normalizes to itself. -/
theorem normalize_unit (v : Vec3 ℝ) (h : Vec3.lengthSq v = 1) :
    Vec3.normalize realPrims v = v := by
  unfold Vec3.normalize Vec3.length
  rw [show realPrims.sqrt = Real.sqrt from rfl, h, Real.sqrt_one]
  simp [Vec3.smul]

/-- With the fixed placeholder axis `(1,0,0)` that `spawnNpcWave` feeds in
as `toShip`, the strafe direction is `(0, -sin a, cos a)` for the seeded
angle `a` — a unit vector of the y-z plane. -/
theorem orthonormalStrafe_xdir (seed : ℝ) :
    orthonormalStrafe realPrims ⟨1, 0, 0⟩ seed
      = ⟨0, -Real.sin (pseudoRand realPrims seed * Real.pi * 2),
          Real.cos (pseudoRand realPrims seed * Real.pi * 2)⟩ := by
  unfold orthonormalStrafe
  simp only []
  have hup : (if |(⟨1, 0, 0⟩ : Vec3 ℝ).y| < 92 / 100 then (⟨0, 1, 0⟩ : Vec3 ℝ)
      else ⟨1, 0, 0⟩) = ⟨0, 1, 0⟩ := by norm_num
  rw [hup]
  have hcross1 : Vec3.cross (⟨1, 0, 0⟩ : Vec3 ℝ) ⟨0, 1, 0⟩ = ⟨0, 0, 1⟩ := by
    simp [Vec3.cross]
  rw [hcross1, normalize_unit ⟨0, 0, 1⟩ (by norm_num [Vec3.lengthSq])]
  have hcross2 : Vec3.cross (⟨1, 0, 0⟩ : Vec3 ℝ) ⟨0, 0, 1⟩ = ⟨0, -1, 0⟩ := by
    simp [Vec3.cross]
  rw [hcross2, normalize_unit ⟨0, -1, 0⟩ (by norm_num [Vec3.lengthSq])]
  have hsum : (Vec3.smul ⟨0, 0, 1⟩ (realPrims.cos (pseudoRand realPrims seed * realPrims.pi * 2)))
      + (Vec3.smul ⟨0, -1, 0⟩ (realPrims.sin (pseudoRand realPrims seed * realPrims.pi * 2)))
      = (⟨0, -Real.sin (pseudoRand realPrims seed * Real.pi * 2),
          Real.cos (pseudoRand realPrims seed * Real.pi * 2)⟩ : Vec3 ℝ) := by
    show (Vec3.smul ⟨0, 0, 1⟩ (Real.cos (pseudoRand realPrims seed * Real.pi * 2)))
        + (Vec3.smul ⟨0, -1, 0⟩ (Real.sin (pseudoRand realPrims seed * Real.pi * 2))) = _
    simp [Vec3.smul, Vec3.add_def]
  rw [hsum, normalize_unit _ (lengthSq_strafe _)]

theorem Vec3.add_sub_cancel_left' (p d : Vec3 ℝ) : (p + d) - p = d := by
  simp [Vec3.add_def, Vec3.sub_def]

noncomputable instance : Inhabited (SpawnedNpc ℝ) :=
  ⟨{ key := "", name := "", spec := BASIC_NPC_SPEC, posWorld := ⟨0, 0, 0⟩, hp := 0,
     strafeDir := ⟨0, 0, 0⟩, nextFireAt := 0 }⟩

/-- The boss the next encounter tick will spawn at the origin site. -/
noncomputable def bossSpawn : SpawnedNpc ℝ := (spawnNpcWave realPrims ⟨0, 0, 0⟩ 3 0).headI

/-- Game state about to spawn wave 3, with the ship sitting along the
strafe direction the boss will receive. -/
noncomputable def c9State : SimState ℝ where
  shipPos := bossSpawn.posWorld + bossSpawn.strafeDir
  shipVel := ⟨0, 0, 0⟩
  navDir := ⟨1, 0, 0⟩
  shipForward := ⟨1, 0, 0⟩
  sublightDir := none
  approach := none
  warp := none
  armor := 120
  hull := 90
  firing := false
  nextFireAt := 0
  lockedKeys := []
  activeKey := none
  selectedKey := none
  targetTestHp := []
  npcs := []
  npcSprites := []
  combatSites := [{ key := "site0", name := "Combat Site 1", posWorld := ⟨0, 0, 0⟩ }]
  celestials := []
  encounter := some { siteKey := "site0", wave := 2, nextWaveAt := 0 }
  warpExitFlash := 0

/-- C9 counterexample: the wave-3 spawn is oblivious to the ship position
(the `toShip` fed to `orthonormalStrafe` is the fixed axis `(1,0,0)`), so
with the ship placed along the spawned strafe direction, the strafe
direction has dot product 1 — not 0 — with the initial direction from the
hostile to the ship: it does not lie in the plane orthogonal to that
direction. -/
theorem spawn_strafe_not_orthogonal :
    ((stepEncounter realPrims 0 c9State).npcs.map fun n =>
        Vec3.dot n.strafeDir (c9State.shipPos - n.posWorld)) = [1] ∧ (1 : ℝ) ≠ 0 := by
  refine ⟨?_, by norm_num⟩
  simp [stepEncounter, c9State, spawnNpcWave, spawnedToMeta, bossSpawn,
    orthonormalStrafe_xdir, Vec3.add_sub_cancel_left', dot_strafe_self]

/-- C9 (amended): every spawned strafe direction is a unit vector of the
plane orthogonal to the fixed placeholder axis `(1,0,0)` that the spawn
code uses in place of the actual to-ship direction (its x component is 0
and its self dot product is 1), derived from the deterministic seeded
pseudo-random angle; and two spawns of the same wave at the same site
produce identical positions and strafe directions. -/
theorem spawnNpcWave_strafe_fixed_plane :
    (∀ (site : Vec3 ℝ) (now : ℝ),
      ((spawnNpcWave realPrims site 3 now).map fun n => n.strafeDir.x) = [0] ∧
      ((spawnNpcWave realPrims site 3 now).map fun n => Vec3.dot n.strafeDir n.strafeDir)
        = [1]) ∧
    (∀ (site : Vec3 ℝ) (now : ℝ),
      ((spawnNpcWave realPrims site 1 now).map fun n => n.strafeDir.x) = [0, 0, 0] ∧
      ((spawnNpcWave realPrims site 1 now).map fun n => Vec3.dot n.strafeDir n.strafeDir)
        = [1, 1, 1]) ∧
    (∀ (site : Vec3 ℝ) (now : ℝ),
      ((spawnNpcWave realPrims site 2 now).map fun n => n.strafeDir.x) = [0, 0, 0] ∧
      ((spawnNpcWave realPrims site 2 now).map fun n => Vec3.dot n.strafeDir n.strafeDir)
        = [1, 1, 1]) ∧
    (∀ (site : Vec3 ℝ) (w : ℕ) (n1 n2 : ℝ),
      ((spawnNpcWave realPrims site w n1).map fun n => (n.posWorld, n.strafeDir))
        = (spawnNpcWave realPrims site w n2).map fun n => (n.posWorld, n.strafeDir)) := by
  refine ⟨?_, ?_, ?_, ?_⟩
  · intro site now
    constructor <;>
      simp [spawnNpcWave, range_three, orthonormalStrafe_xdir, dot_strafe_self]
  · intro site now
    constructor <;>
      simp [spawnNpcWave, range_three, orthonormalStrafe_xdir, dot_strafe_self]
  · intro site now
    constructor <;>
      simp [spawnNpcWave, range_three, orthonormalStrafe_xdir, dot_strafe_self]
  · intro site w n1 n2
    by_cases hw : w = 3 <;> simp [spawnNpcWave, range_three, hw]

/-- The example hostile 20 km away: inside weapon range. -/
def nearNpc : NpcMeta ℚ := { cNpc with posWorld := ⟨1 / 50000, 0, 0⟩ }

/-- Firing at the locked near hostile. -/
def nearState : SimState ℚ :=
  { baseState with
      npcs := [nearNpc]
      npcSprites := [nearNpc.key]
      lockedKeys := [nearNpc.key]
      activeKey := some nearNpc.key
      targetTestHp := [(nearNpc.key, 100)]
      firing := true
      nextFireAt := 0 }

theorem sqrt_near : Rat.sqrt (1 / 2500000000) = 1 / 50000 := by
  rw [show (1 / 2500000000 : ℚ) = (1 / 50000) * (1 / 50000) by norm_num, Rat.sqrt_eq]
  exact abs_of_nonneg (by norm_num)

theorem centerdist_near :
    centerDistanceMeters testPrims (⟨0, 0, 0⟩ : Vec3 ℚ) nearNpc.posWorld = 20000 := by
  unfold centerDistanceMeters
  simp only [Vec3.distanceTo, Vec3.length, Vec3.lengthSq, Vec3.sub_def, testPrims,
    SCALE_FACTOR, show nearNpc.posWorld = (⟨1 / 50000, 0, 0⟩ : Vec3 ℚ) from rfl]
  norm_num [sqrt_near]

/-- Witness for C8 (amended): all firing-branch hypotheses hold for the
near hostile (20 km, inside the 25 km range), the characterization
applies, and the shot branch is taken with the cooldown consumed. -/
theorem autofire_uses_center_distance_witness :
    nearState.firing = true ∧ nearState.nextFireAt ≤ 1000 ∧
    autofireStep testPrims 1000 nearState =
      { performShot nearNpc.key nearState with
          nextFireAt := 1000 + DEFAULT_SHIP_STATS.weapon.cooldownMs } :=
  ⟨rfl, by norm_num [nearState, baseState], by
    rw [autofire_uses_center_distance testPrims 1000 nearState nearNpc.key (.npc nearNpc)
      rfl rfl (by simp [nearState, baseState]) (by norm_num [nearState, baseState])
      (by simp [findSpaceByKey, nearState, baseState, nearNpc, cNpc])]
    rw [show nearState.shipPos = (⟨0, 0, 0⟩ : Vec3 ℚ) from rfl,
      show (SpaceMeta.npc nearNpc).posWorld = nearNpc.posWorld from rfl, centerdist_near]
    rw [if_pos (by norm_num [DEFAULT_SHIP_STATS])]⟩
